import Mathlib

/-!
# Synchronous operations of the polaris-go gRPC server connector

Shallow embedding of `plugin/serverconnector/grpc/operation_sync.go`:
`RegisterInstance`, `DeregisterInstance`, `Heartbeat`, `waitDiscoverReady` and
`ReportClient`.

An execution is a function of the connector state, the request, and the
answers the collaborators give during that execution (`Env`): the pool
(`GetConnection`, `IsReady`, `GetClientInfo`), the clocks, the request-id
counter, the context builder and the transport.  It yields the Go return
values (or a panic) together with the ordered trace of calls made on the
collaborators.  Level-gated debug logging (`Debugf`) has no effect on control
flow and is left out of the trace.
-/

namespace Polaris

/-! ## Data model -/

/-- An instant, in nanoseconds (`time.Time`). -/
abbrev Time := Int

/-- A span in nanoseconds (`time.Duration`, an int64). -/
abbrev Duration := Int

/-- Smallest `time.Duration`. -/
def minDuration : Duration := -9223372036854775808

/-- Largest `time.Duration`. -/
def maxDuration : Duration := 9223372036854775807

/-- The method `time.Time.Sub`: the difference `t - u`, saturated to the int64 range. -/
def Sub (t u : Time) : Duration :=
  if maxDuration < t - u then maxDuration
  else if t - u < minDuration then minDuration
  else t - u

/-- A Go `error` value produced by a collaborator (pool or transport). -/
abbrev Error := String

/-- Modelled from the spec: the constants of `model.ErrCode` (pkg/model, an int32-based
type whose declaration is absent from the sources) that the operations name: invalid-state,
server user error, network error, server exception, and the call-result kinds connect
error, server error ("server-internal") and rpc error.  `other` stands for every other
value of the type. -/
inductive ErrCode where
  | ErrCodeInvalidStateError
  | ErrCodeServerUserError
  | ErrCodeNetworkError
  | ErrCodeServerException
  | ErrCodeConnectError
  | ErrCodeServerError
  | ErrorCodeRpcError
  | other (v : Int)
  deriving DecidableEq, Repr

/-- The operation keys of `connector` (plugin/serverconnector/common) used here. -/
inductive OpKey where
  | OpKeyRegisterInstance
  | OpKeyDeregisterInstance
  | OpKeyInstanceHeartbeat
  | OpKeyReportClient
  deriving DecidableEq, Repr

/-- The cluster selectors of `config` used here. -/
inductive ClusterType where
  | DiscoverCluster
  | HealthCheckCluster
  deriving DecidableEq, Repr

/-- Identifier of a pooled connection (`network.ConnID`). -/
structure ConnID where
  ID : Nat
  Address : String
  deriving DecidableEq, Repr

/-- A leased connection (`network.Connection`): its identifier; the transport handle
`Conn` is only handed to the gRPC client. -/
structure Connection where
  ConnID : ConnID
  deriving DecidableEq, Repr

/-- Result code `apimodel.Code_ExecuteSuccess`. -/
def Code_ExecuteSuccess : Nat := 200000

/-- Result code `apimodel.Code_ExistedResource`. -/
def Code_ExistedResource : Nat := 400201

/-- Result code `apimodel.Code_NotFoundResource`. -/
def Code_NotFoundResource : Nat := 400202

/-- Result code `apimodel.Code_CMDBNotFindHost`. -/
def Code_CMDBNotFindHost : Nat := 404001

/-! ### Wire response (`apiservice.Response`) with its nil-safe getters -/

/-- The message `apimodel.Location`; wrapper fields may be nil. -/
structure Location where
  Region : Option String
  Zone : Option String
  Campus : Option String
  deriving DecidableEq, Repr

/-- The message `apiservice.Client`; `Type_` is its enum field `Type`. -/
structure Client where
  Type_ : Int
  Version : Option String
  Location : Option Location
  deriving DecidableEq, Repr

/-- The message `apiservice.Instance` (the field read here). -/
structure Instance where
  Id : Option String
  deriving DecidableEq, Repr

/-- The message `apiservice.Response` (the fields read here). -/
structure Response where
  Code : Option Nat
  Info : Option String
  Client : Option Client
  Instance : Option Instance
  deriving DecidableEq, Repr

/-- The chain `pbResp.GetCode().GetValue()`. -/
def GetCode (pbResp : Option Response) : Nat :=
  match pbResp with
  | some r => r.Code.getD 0
  | none => 0

/-- The chain `pbResp.GetInfo().GetValue()`. -/
def GetInfo (pbResp : Option Response) : String :=
  match pbResp with
  | some r => r.Info.getD ""
  | none => ""

/-- The chain `pbResp.GetInstance().GetId().GetValue()`. -/
def GetInstanceId (pbResp : Option Response) : String :=
  match pbResp with
  | some r =>
    match r.Instance with
    | some i => i.Id.getD ""
    | none => ""
  | none => ""

/-- The getter `pbResp.GetClient()`. -/
def GetClient (pbResp : Option Response) : Option Client :=
  match pbResp with
  | some r => r.Client
  | none => none

/-- The getter `GetType()` of a possibly nil client. -/
def GetType (c : Option Client) : Int :=
  match c with
  | some c => c.Type_
  | none => 0

/-- The chain `GetVersion().GetValue()` of a possibly nil client. -/
def GetVersion (c : Option Client) : String :=
  match c with
  | some c => c.Version.getD ""
  | none => ""

/-- The getter `GetLocation()` of a possibly nil client. -/
def GetLocation (c : Option Client) : Option Location :=
  match c with
  | some c => c.Location
  | none => none

/-- The chain `GetRegion().GetValue()` of a possibly nil location. -/
def GetRegion (l : Option Location) : String :=
  match l with
  | some l => l.Region.getD ""
  | none => ""

/-- The chain `GetZone().GetValue()` of a possibly nil location. -/
def GetZone (l : Option Location) : String :=
  match l with
  | some l => l.Zone.getD ""
  | none => ""

/-- The chain `GetCampus().GetValue()` of a possibly nil location. -/
def GetCampus (l : Option Location) : String :=
  match l with
  | some l => l.Campus.getD ""
  | none => ""

/-! ### Requests and responses of the SDK (`pkg/model`) -/

/-- The request `model.InstanceRegisterRequest`; `Timeout` is a pointer. -/
structure InstanceRegisterRequest where
  Service : String
  Namespace : String
  Host : String
  Port : Nat
  Timeout : Option Duration
  deriving DecidableEq, Repr

/-- The request `model.InstanceDeRegisterRequest`; `Timeout` is a pointer. -/
structure InstanceDeRegisterRequest where
  Service : String
  Namespace : String
  InstanceID : String
  Host : String
  Port : Nat
  Timeout : Option Duration
  deriving DecidableEq, Repr

/-- The request `model.InstanceHeartbeatRequest`; `Timeout` is a pointer. -/
structure InstanceHeartbeatRequest where
  Service : String
  Namespace : String
  InstanceID : String
  Host : String
  Port : Nat
  Timeout : Option Duration
  deriving DecidableEq, Repr

/-- The request `model.ReportClientRequest`; `Timeout` is a value, `PersistHandler`
an optional callback on the raw response returning a Go error. -/
structure ReportClientRequest where
  Host : String
  Version : String
  Timeout : Duration
  PersistHandler : Option (Option Response → Option Error)

/-- The response `model.InstanceRegisterResponse`. -/
structure InstanceRegisterResponse where
  InstanceID : String
  Existed : Bool
  deriving DecidableEq, Repr

/-- The response `model.ReportClientResponse`. -/
structure ReportClientResponse where
  Mode : Int
  Version : String
  Region : String
  Zone : String
  Campus : String
  deriving DecidableEq, Repr

/-! ### Errors of the SDK -/

/-- An argument of a format call. -/
inductive FmtArg where
  | opKey (k : OpKey)
  | str (s : String)
  | num (n : Nat)
  | connID (c : ConnID)
  | registerReq (r : InstanceRegisterRequest)
  | deregisterReq (r : InstanceDeRegisterRequest)
  | heartbeatReq (r : InstanceHeartbeatRequest)
  deriving DecidableEq, Repr

/-- A message given as a format string and its arguments (`fmt.Sprintf`, unevaluated). -/
structure Fmt where
  format : String
  args : List FmtArg
  deriving DecidableEq, Repr

/-- Modelled from the spec: the error value `model.SDKError` (pkg/model, absent from the
sources): its kind, the wrapped cause, the server's result code and info message when the
error was built with them, and the detail message. -/
structure SDKError where
  errCode : ErrCode
  cause : Option Error
  serverInfo : Option (Nat × String)
  errDetail : Fmt
  deriving DecidableEq, Repr

/-- Modelled from the spec: the constructor `model.NewSDKError(errCode, cause, msg, args...)`
(pkg/model, absent from the sources): an error of the given kind wrapping the cause. -/
def NewSDKError (errCode : ErrCode) (cause : Option Error) (msg : Fmt) : SDKError :=
  { errCode := errCode, cause := cause, serverInfo := none, errDetail := msg }

/-- Modelled from the spec: the constructor
`model.NewSDKErrorWithServerInfo(errCode, cause, serverCode, serverInfo, msg)` (pkg/model,
absent from the sources): as `NewSDKError`, carrying the server's code and message. -/
def NewSDKErrorWithServerInfo (errCode : ErrCode) (cause : Option Error) (serverCode : Nat)
    (serverInfo : String) (msg : Fmt) : SDKError :=
  { errCode := errCode, cause := cause, serverInfo := some (serverCode, serverInfo),
    errDetail := msg }

/-! ### Executions -/

/-- The request handed to the transport, after its `...ToProto` conversion is applied. -/
inductive RpcCall where
  | RegisterInstance (req : InstanceRegisterRequest) (header : List (String × String))
  | DeregisterInstance (req : InstanceDeRegisterRequest)
  | Heartbeat (req : InstanceHeartbeatRequest)
  | ReportClient (Host : String) (Version : String)
  deriving DecidableEq, Repr

/-- A call made on a collaborator during an execution. -/
inductive Event where
  | IsReady
  | Sleep
  | LogInfo
  | LogError
  | GetConnection (opKey : OpKey) (cluster : ClusterType)
  | Release (connID : ConnID) (opKey : OpKey)
  | ReportSuccess (connID : ConnID) (code : ErrCode) (elapsed : Duration)
  | ReportFail (connID : ConnID) (code : ErrCode) (elapsed : Duration)
  | GetClientInfo
  | rpc (connID : ConnID) (reqID : String) (timeout : Duration) (call : RpcCall)
  | PersistHandler (pbResp : Option Response)
  | cancel
  deriving DecidableEq, Repr

/-- How a Go function ends: with its return values, or with a panic. -/
inductive Outcome (α : Type) where
  | returned (a : α)
  | panicked
  deriving DecidableEq, Repr

/-- Apply a function to the returned values. -/
def Outcome.map {α β : Type} (f : α → β) : Outcome α → Outcome β
  | .returned a => .returned (f a)
  | .panicked => .panicked

/-- What `connManager.GetConnection` gives back: a handle and a nil error, or an error
with whatever handle (possibly nil) comes with it. -/
inductive GetConnectionResult where
  | ok (conn : Connection)
  | fail (conn : Option Connection) (err : Error)
  deriving DecidableEq, Repr

/-- What the transport call gives back: `(pbResp, err)`. -/
structure RpcResult where
  pbResp : Option Response
  err : Option Error
  deriving DecidableEq, Repr

/-- What one iteration of the readiness loop observes: whether `g.RunContext.Done()` and
`ctx.Done()` are ready, which of the two the `select` takes when both are (`pickCtx`), and
what `IsReady()` answers if it is asked. -/
structure Poll where
  runDone : Bool
  ctxDone : Bool
  pickCtx : Bool
  isReady : Bool
  deriving DecidableEq, Repr

/-- The connector state the operations touch: the one-time flag `hasPrintedReady`. -/
structure Connector where
  hasPrintedReady : Nat
  deriving DecidableEq, Repr

/-- The collaborators' answers during one execution. `clock n` is the n-th reading of
`clock.GetClock().Now()`, `valueCtxNow` the reading of `g.valueCtx.Now()`.
`ConvertServerErrorToRpcError` is the code mapping of package `pb`, absent from the
sources and taken as given. -/
structure Env where
  polls : List Poll
  clock : Nat → Time
  valueCtxNow : Time
  GetConnection : GetConnectionResult
  reqID : String
  cancelNonNil : Bool
  rpc : RpcResult
  clientIP : String
  ConvertServerErrorToRpcError : Nat → ErrCode

/-- An execution: how it ended, the calls it made in order, and the flag afterwards. -/
structure Exec (α : Type) where
  out : Outcome α
  trace : List Event
  hasPrintedReady : Nat

/-! ## The readiness gate -/

/-- What `waitDiscoverReady` gives back: the error (nil when the operation may proceed),
the flag afterwards, and the calls made while polling. -/
structure GateResult where
  err : Option SDKError
  hasPrintedReady : Nat
  trace : List Event
  deriving DecidableEq, Repr

/-- The branch a `select` with the cases `<-g.RunContext.Done()`, `<-ctx.Done()` and
`default` takes. -/
inductive Selected where
  | runContextDone
  | ctxDone
  | default
  deriving DecidableEq, Repr

/-- Go's `select`: a ready case is taken; when both channels are ready the runtime
chooses between them (`pickCtx`); `default` runs only when neither is ready. -/
def select (p : Poll) : Selected :=
  if p.runDone && p.ctxDone then
    (if p.pickCtx then Selected.ctxDone else Selected.runContextDone)
  else if p.runDone then Selected.runContextDone
  else if p.ctxDone then Selected.ctxDone
  else Selected.default

/-- The method `Connector.waitDiscoverReady`, one loop iteration per observation; `none`
when the observations end while the loop is still polling. -/
def waitDiscoverReady (hasPrintedReady : Nat) : List Poll → Option GateResult
  | [] => none
  | p :: rest =>
    match select p with
    | Selected.runContextDone =>
      some { err := some (NewSDKError ErrCode.ErrCodeInvalidStateError none
                      { format := "SDK context has destroyed", args := [] }),
             hasPrintedReady := hasPrintedReady, trace := [] }
    | Selected.ctxDone =>
      some { err := none, hasPrintedReady := hasPrintedReady, trace := [] }
    | Selected.default =>
      if p.isReady then
        if hasPrintedReady = 0 then
          some { err := none, hasPrintedReady := 1, trace := [Event.IsReady, Event.LogInfo] }
        else
          some { err := none, hasPrintedReady := hasPrintedReady, trace := [Event.IsReady] }
      else
        match waitDiscoverReady hasPrintedReady rest with
        | none => none
        | some r => some { r with trace := Event.IsReady :: Event.Sleep :: r.trace }

/-! ## The operations -/

/-- Modelled from the spec: the helper `connector.NetworkError(connManager, conn, errCode,
err, startTime, msg)` of plugin/serverconnector/common, absent from the sources. On a
leased connection the failure is "classified as a network-class failure and reported to the
pool as a failed interaction tied to the specific connection used": it reads the clock
(`now`), calls `ReportFail(conn.ConnID, errCode, now.Sub(startTime))` and returns a
network-error wrapping the cause. Without a connection (a nil handle, as after a failed
acquisition) the failure "occurs before any health signal is emitted, since there is no
connection to attribute it to": nothing is reported and the network-error is returned. -/
def NetworkError (conn : Option Connection) (errCode : ErrCode) (err : Error)
    (startTime now : Time) (msg : Fmt) : Outcome SDKError × List Event :=
  match conn with
  | none => (Outcome.returned (NewSDKError ErrCode.ErrCodeNetworkError (some err) msg), [])
  | some c =>
    (Outcome.returned (NewSDKError ErrCode.ErrCodeNetworkError (some err) msg),
     [Event.ReportFail c.ConnID errCode (Sub now startTime)])

/-- The deferred calls run when a function exits after both defers were registered:
`cancel()` (if non-nil) first, then `conn.Release(opKey)`. -/
def deferred (cancelNonNil : Bool) (conn : Connection) (opKey : OpKey) : List Event :=
  (if cancelNonNil then [Event.cancel] else []) ++ [Event.Release conn.ConnID opKey]

/-- The common prologue `if err := g.waitDiscoverReady(); err != nil { return ..., err }`
followed by the rest of the function. -/
def afterGate {α : Type} (g : Connector) (env : Env) (onErr : SDKError → α)
    (rest : Outcome α × List Event) : Option (Exec α) :=
  match waitDiscoverReady g.hasPrintedReady env.polls with
  | none => none
  | some gate =>
    match gate.err with
    | some err =>
      some { out := Outcome.returned (onErr err), trace := gate.trace,
             hasPrintedReady := gate.hasPrintedReady }
    | none =>
      some { out := rest.1, trace := gate.trace ++ rest.2,
             hasPrintedReady := gate.hasPrintedReady }

/-- Lines 44-101 of `Connector.RegisterInstance`: everything after the readiness gate. -/
def RegisterInstance.call (env : Env) (req : InstanceRegisterRequest)
    (header : List (String × String)) :
    Outcome (Option InstanceRegisterResponse × Option SDKError) × List Event :=
  let opKey := OpKey.OpKeyRegisterInstance
  let startTime := env.clock 0
  let acquire := Event.GetConnection opKey ClusterType.DiscoverCluster
  match env.GetConnection with
  | GetConnectionResult.fail conn err =>
    let r := NetworkError conn ErrCode.ErrCodeConnectError err startTime (env.clock 1)
      { format := "fail to get connection, opKey %s", args := [FmtArg.opKey opKey] }
    (r.1.map (fun e => (none, some e)), acquire :: r.2)
  | GetConnectionResult.ok conn =>
    match req.Timeout with
    | none => (Outcome.panicked, [acquire, Event.Release conn.ConnID opKey])
    | some timeout =>
      let call := Event.rpc conn.ConnID env.reqID timeout (RpcCall.RegisterInstance req header)
      let endTime := env.clock 1
      match env.rpc.err with
      | some err =>
        let r := NetworkError (some conn) ErrCode.ErrorCodeRpcError err startTime (env.clock 2)
          { format := "fail to registerInstance, request %s, reason is fail to send request, reqID %s, server %s",
            args := [FmtArg.registerReq req, FmtArg.str env.reqID, FmtArg.connID conn.ConnID] }
        (r.1.map (fun e => (none, some e)),
         [acquire, call] ++ r.2 ++ deferred env.cancelNonNil conn opKey)
      | none =>
        let code := GetCode env.rpc.pbResp
        let serverCodeType := env.ConvertServerErrorToRpcError code
        if Code_ExecuteSuccess ≠ code ∧ Code_ExistedResource ≠ code then
          let errMsg : Fmt :=
            { format := "fail to registerInstance, request %s, server code %d, reason %s, server %s",
              args := [FmtArg.registerReq req, FmtArg.num code,
                       FmtArg.str (GetInfo env.rpc.pbResp), FmtArg.connID conn.ConnID] }
          if serverCodeType = ErrCode.ErrCodeServerError then
            (Outcome.returned (none, some (NewSDKError ErrCode.ErrCodeServerException none errMsg)),
             [acquire, call,
              Event.ReportFail conn.ConnID ErrCode.ErrCodeServerError (Sub endTime startTime)]
               ++ deferred env.cancelNonNil conn opKey)
          else
            (Outcome.returned (none, some (NewSDKError ErrCode.ErrCodeServerUserError none errMsg)),
             [acquire, call,
              Event.ReportSuccess conn.ConnID serverCodeType (Sub endTime startTime)]
               ++ deferred env.cancelNonNil conn opKey)
        else
          (Outcome.returned
             (some { InstanceID := GetInstanceId env.rpc.pbResp,
                     Existed := decide (Code_ExistedResource = code) }, none),
           [acquire, call,
            Event.ReportSuccess conn.ConnID serverCodeType (Sub endTime startTime)]
             ++ deferred env.cancelNonNil conn opKey)

/-- The method `Connector.RegisterInstance`. -/
def RegisterInstance (g : Connector) (env : Env) (req : InstanceRegisterRequest)
    (header : List (String × String)) :
    Option (Exec (Option InstanceRegisterResponse × Option SDKError)) :=
  afterGate g env (fun err => (none, some err)) (RegisterInstance.call env req header)

/-- Lines 109-162 of `Connector.DeregisterInstance`: everything after the readiness gate. -/
def DeregisterInstance.call (env : Env) (req : InstanceDeRegisterRequest) :
    Outcome (Option SDKError) × List Event :=
  let opKey := OpKey.OpKeyDeregisterInstance
  let startTime := env.clock 0
  let acquire := Event.GetConnection opKey ClusterType.DiscoverCluster
  match env.GetConnection with
  | GetConnectionResult.fail _ err =>
    (Outcome.returned (some (NewSDKError ErrCode.ErrCodeNetworkError (some err)
        { format := "fail to get connection, opKey %s", args := [FmtArg.opKey opKey] })),
     [acquire])
  | GetConnectionResult.ok conn =>
    match req.Timeout with
    | none => (Outcome.panicked, [acquire, Event.Release conn.ConnID opKey])
    | some timeout =>
      let call := Event.rpc conn.ConnID env.reqID timeout (RpcCall.DeregisterInstance req)
      let endTime := env.clock 1
      match env.rpc.err with
      | some err =>
        let r := NetworkError (some conn) ErrCode.ErrorCodeRpcError err startTime (env.clock 2)
          { format := "fail to deregisterInstance, request %s, reason is fail to send request, reqID %s, server %s",
            args := [FmtArg.deregisterReq req, FmtArg.str env.reqID, FmtArg.connID conn.ConnID] }
        (r.1.map some, [acquire, call] ++ r.2 ++ deferred env.cancelNonNil conn opKey)
      | none =>
        let code := GetCode env.rpc.pbResp
        let serverCodeType := env.ConvertServerErrorToRpcError code
        if Code_ExecuteSuccess ≠ code ∧ Code_NotFoundResource ≠ code then
          let errMsg : Fmt :=
            { format := "fail to deregisterInstance, request %s, server code %d, reason %s, server %s",
              args := [FmtArg.deregisterReq req, FmtArg.num code,
                       FmtArg.str (GetInfo env.rpc.pbResp), FmtArg.connID conn.ConnID] }
          if serverCodeType = ErrCode.ErrCodeServerError then
            (Outcome.returned (some (NewSDKError ErrCode.ErrCodeServerException none errMsg)),
             [acquire, call,
              Event.ReportFail conn.ConnID ErrCode.ErrCodeServerError (Sub endTime startTime)]
               ++ deferred env.cancelNonNil conn opKey)
          else
            (Outcome.returned (some (NewSDKError ErrCode.ErrCodeServerUserError none errMsg)),
             [acquire, call,
              Event.ReportSuccess conn.ConnID serverCodeType (Sub endTime startTime)]
               ++ deferred env.cancelNonNil conn opKey)
        else
          (Outcome.returned none,
           [acquire, call,
            Event.ReportSuccess conn.ConnID serverCodeType (Sub endTime startTime)]
             ++ deferred env.cancelNonNil conn opKey)

/-- The method `Connector.DeregisterInstance`. -/
def DeregisterInstance (g : Connector) (env : Env) (req : InstanceDeRegisterRequest) :
    Option (Exec (Option SDKError)) :=
  afterGate g env some (DeregisterInstance.call env req)

/-- Lines 170-223 of `Connector.Heartbeat`: everything after the readiness gate. -/
def Heartbeat.call (env : Env) (req : InstanceHeartbeatRequest) :
    Outcome (Option SDKError) × List Event :=
  let opKey := OpKey.OpKeyInstanceHeartbeat
  let startTime := env.clock 0
  let acquire := Event.GetConnection opKey ClusterType.HealthCheckCluster
  match env.GetConnection with
  | GetConnectionResult.fail _ err =>
    (Outcome.returned (some (NewSDKError ErrCode.ErrCodeNetworkError (some err)
        { format := "fail to get connection, opKey %s", args := [FmtArg.opKey opKey] })),
     [acquire])
  | GetConnectionResult.ok conn =>
    match req.Timeout with
    | none => (Outcome.panicked, [acquire, Event.Release conn.ConnID opKey])
    | some timeout =>
      let call := Event.rpc conn.ConnID env.reqID timeout (RpcCall.Heartbeat req)
      let endTime := env.clock 1
      match env.rpc.err with
      | some err =>
        let r := NetworkError (some conn) ErrCode.ErrorCodeRpcError err startTime (env.clock 2)
          { format := "fail to heartbeat, request %s, reason is fail to send request, reqID %s, server %s",
            args := [FmtArg.heartbeatReq req, FmtArg.str env.reqID, FmtArg.connID conn.ConnID] }
        (r.1.map some, [acquire, call] ++ r.2 ++ deferred env.cancelNonNil conn opKey)
      | none =>
        let code := GetCode env.rpc.pbResp
        let serverCodeType := env.ConvertServerErrorToRpcError code
        if Code_ExecuteSuccess ≠ code then
          let errMsg : Fmt :=
            { format := "fail to heartbeat, request %s, server error code is %d, error is %s, server %s",
              args := [FmtArg.heartbeatReq req, FmtArg.num code,
                       FmtArg.str (GetInfo env.rpc.pbResp), FmtArg.connID conn.ConnID] }
          if serverCodeType = ErrCode.ErrCodeServerError then
            (Outcome.returned (some (NewSDKErrorWithServerInfo ErrCode.ErrCodeServerException none
                code (GetInfo env.rpc.pbResp) errMsg)),
             [acquire, call, Event.LogError,
              Event.ReportFail conn.ConnID ErrCode.ErrCodeServerError (Sub endTime startTime)]
               ++ deferred env.cancelNonNil conn opKey)
          else
            (Outcome.returned (some (NewSDKErrorWithServerInfo ErrCode.ErrCodeServerUserError none
                code (GetInfo env.rpc.pbResp) errMsg)),
             [acquire, call, Event.LogError,
              Event.ReportSuccess conn.ConnID serverCodeType (Sub endTime startTime)]
               ++ deferred env.cancelNonNil conn opKey)
        else
          (Outcome.returned none,
           [acquire, call,
            Event.ReportSuccess conn.ConnID serverCodeType (Sub endTime startTime)]
             ++ deferred env.cancelNonNil conn opKey)

/-- The method `Connector.Heartbeat`. -/
def Heartbeat (g : Connector) (env : Env) (req : InstanceHeartbeatRequest) :
    Option (Exec (Option SDKError)) :=
  afterGate g env some (Heartbeat.call env req)

/-- What `ReportClient` leaves behind: its two return values and the request, which it
may have updated through the pointer. -/
structure ReportClientResult where
  resp : Option ReportClientResponse
  err : Option SDKError
  req : ReportClientRequest

/-- Lines 258-325 of `Connector.ReportClient`: everything after the readiness gate. -/
def ReportClient.call (env : Env) (req : ReportClientRequest) :
    Outcome ReportClientResult × List Event :=
  let opKey := OpKey.OpKeyReportClient
  let startTime := env.clock 0
  let acquire := Event.GetConnection opKey ClusterType.DiscoverCluster
  match env.GetConnection with
  | GetConnectionResult.fail _ err =>
    (Outcome.returned
       { resp := none,
         err := some (NewSDKError ErrCode.ErrCodeNetworkError (some err)
           { format := "fail to get connection, opKey %s", args := [FmtArg.opKey opKey] }),
         req := req },
     [acquire])
  | GetConnectionResult.ok conn =>
    let hostEmpty : Bool := decide (req.Host.length = 0)
    let req1 : ReportClientRequest := if hostEmpty then { req with Host := env.clientIP } else req
    let lookup : List Event := if hostEmpty then [Event.GetClientInfo] else []
    let call := Event.rpc conn.ConnID env.reqID req.Timeout
      (RpcCall.ReportClient req1.Host req1.Version)
    let endTime := env.valueCtxNow
    match env.rpc.err with
    | some err =>
      let r := NetworkError (some conn) ErrCode.ErrorCodeRpcError err startTime (env.clock 1)
        { format := "fail to send request, opKey %s, reqID %s, connID %s",
          args := [FmtArg.opKey opKey, FmtArg.str env.reqID, FmtArg.connID conn.ConnID] }
      (r.1.map (fun e => { resp := none, err := some e, req := req1 }),
       [acquire] ++ lookup ++ [call] ++ r.2 ++ deferred env.cancelNonNil conn opKey)
    | none =>
      let code := GetCode env.rpc.pbResp
      let serverCodeType := env.ConvertServerErrorToRpcError code
      if Code_ExecuteSuccess ≠ code ∧ Code_CMDBNotFindHost ≠ code then
        let errMsg : Fmt :=
          { format := "fail to reportClient, server error code is %d, error is %s, connID %s",
            args := [FmtArg.num code, FmtArg.str (GetInfo env.rpc.pbResp),
                     FmtArg.connID conn.ConnID] }
        if serverCodeType = ErrCode.ErrCodeServerError then
          (Outcome.returned
             { resp := none,
               err := some (NewSDKError ErrCode.ErrCodeServerException none errMsg),
               req := req1 },
           [acquire] ++ lookup ++ [call,
            Event.ReportFail conn.ConnID ErrCode.ErrCodeServerError (Sub endTime startTime)]
             ++ deferred env.cancelNonNil conn opKey)
        else
          (Outcome.returned
             { resp := none,
               err := some (NewSDKError ErrCode.ErrCodeServerUserError none errMsg),
               req := req1 },
           [acquire] ++ lookup ++ [call,
            Event.ReportSuccess conn.ConnID serverCodeType (Sub endTime startTime)]
             ++ deferred env.cancelNonNil conn opKey)
      else
        let persist : List Event :=
          match req1.PersistHandler with
          | none => []
          | some handler =>
            match handler env.rpc.pbResp with
            | some _ => [Event.PersistHandler env.rpc.pbResp, Event.LogError]
            | none => [Event.PersistHandler env.rpc.pbResp]
        let rsp : ReportClientResponse :=
          { Mode := GetType (GetClient env.rpc.pbResp),
            Version := GetVersion (GetClient env.rpc.pbResp),
            Region := GetRegion (GetLocation (GetClient env.rpc.pbResp)),
            Zone := GetZone (GetLocation (GetClient env.rpc.pbResp)),
            Campus := GetCampus (GetLocation (GetClient env.rpc.pbResp)) }
        (Outcome.returned { resp := some rsp, err := none, req := req1 },
         [acquire] ++ lookup ++ [call,
          Event.ReportSuccess conn.ConnID serverCodeType (Sub endTime startTime)]
           ++ persist ++ deferred env.cancelNonNil conn opKey)

/-- The method `Connector.ReportClient`. -/
def ReportClient (g : Connector) (env : Env) (req : ReportClientRequest) :
    Option (Exec ReportClientResult) :=
  afterGate g env (fun err => { resp := none, err := some err, req := req })
    (ReportClient.call env req)

/-! ## Reading traces -/

/-- The calls of a trace that are `Release`. -/
def releases (tr : List Event) : List Event :=
  tr.filter (fun e => match e with
    | Event.Release _ _ => true
    | _ => false)

/-- The calls of a trace that are health signals (`ReportSuccess` or `ReportFail`). -/
def healthSignals (tr : List Event) : List Event :=
  tr.filter (fun e => match e with
    | Event.ReportSuccess _ _ _ => true
    | Event.ReportFail _ _ _ => true
    | _ => false)

/-- The calls of a trace that are `ReportSuccess`. -/
def reportSuccessCalls (tr : List Event) : List Event :=
  tr.filter (fun e => match e with
    | Event.ReportSuccess _ _ _ => true
    | _ => false)

/-- The calls of a trace that are `GetConnection`. -/
def acquisitions (tr : List Event) : List Event :=
  tr.filter (fun e => match e with
    | Event.GetConnection _ _ => true
    | _ => false)

/-- The calls of a trace that go to the transport. -/
def transportCalls (tr : List Event) : List Event :=
  tr.filter (fun e => match e with
    | Event.rpc _ _ _ _ => true
    | _ => false)

/-- The invocations of the persistence callback in a trace. -/
def persistCalls (tr : List Event) : List Event :=
  tr.filter (fun e => match e with
    | Event.PersistHandler _ => true
    | _ => false)

/-- The calls of a trace that are `GetClientInfo`. -/
def clientInfoCalls (tr : List Event) : List Event :=
  tr.filter (fun e => match e with
    | Event.GetClientInfo => true
    | _ => false)

/-- The client record `ReportClient` builds from a server response. -/
def clientResponse (pbResp : Option Response) : ReportClientResponse :=
  { Mode := GetType (GetClient pbResp),
    Version := GetVersion (GetClient pbResp),
    Region := GetRegion (GetLocation (GetClient pbResp)),
    Zone := GetZone (GetLocation (GetClient pbResp)),
    Campus := GetCampus (GetLocation (GetClient pbResp)) }

/-- The request as `ReportClient` leaves it once a connection is leased: an empty host
is replaced by the pool's client address. -/
def hostDefaulted (env : Env) (req : ReportClientRequest) : ReportClientRequest :=
  if decide (req.Host.length = 0) = true then { req with Host := env.clientIP } else req

/-- The same environment with another response body and another code mapping. -/
def withResponse (env : Env) (pbResp : Option Response) (convert : Nat → ErrCode) : Env :=
  { env with rpc := { pbResp := pbResp, err := env.rpc.err },
             ConvertServerErrorToRpcError := convert }

/-- The error `waitDiscoverReady` returns on shutdown. -/
def invalidStateError : SDKError :=
  NewSDKError ErrCode.ErrCodeInvalidStateError none
    { format := "SDK context has destroyed", args := [] }

/-! ## Sample inputs -/

/-- An environment used for examples: the pool is ready at the first poll, leases
connection 7, and the transport answers with the given response. -/
def sampleEnv (pbResp : Option Response) : Env :=
  { polls := [{ runDone := false, ctxDone := false, pickCtx := false, isReady := true }],
    clock := fun n => 100 + 10 * (n : Int),
    valueCtxNow := 115,
    GetConnection := GetConnectionResult.ok { ConnID := { ID := 7, Address := "127.0.0.1:8091" } },
    reqID := "1",
    cancelNonNil := true,
    rpc := { pbResp := pbResp, err := none },
    clientIP := "10.0.0.1",
    ConvertServerErrorToRpcError := fun code =>
      if code / 1000 = 500 then ErrCode.ErrCodeServerError else ErrCode.other 0 }

/-- A server response used for examples: the given code, info "info", instance "X" and
a client record. -/
def sampleResponse (code : Nat) : Option Response :=
  some { Code := some code, Info := some "info",
         Client := some { Type_ := 1, Version := some "v1",
                          Location := some { Region := some "r", Zone := some "z",
                                             Campus := some "c" } },
         Instance := some { Id := some "X" } }

/-- The connection leased in the examples. -/
def sampleConn : Connection := { ConnID := { ID := 7, Address := "127.0.0.1:8091" } }

/-- What the gate gives back in the examples, starting from an unset flag. -/
def sampleGate : GateResult :=
  { err := none, hasPrintedReady := 1, trace := [Event.IsReady, Event.LogInfo] }

/-- A register request used for examples. -/
def sampleRegisterRequest : InstanceRegisterRequest :=
  { Service := "svc", Namespace := "ns", Host := "h", Port := 80, Timeout := some 1000 }

/-- A deregister request used for examples. -/
def sampleDeRegisterRequest : InstanceDeRegisterRequest :=
  { Service := "svc", Namespace := "ns", InstanceID := "X", Host := "h", Port := 80,
    Timeout := some 1000 }

/-- A heartbeat request used for examples. -/
def sampleHeartbeatRequest : InstanceHeartbeatRequest :=
  { Service := "svc", Namespace := "ns", InstanceID := "X", Host := "h", Port := 80,
    Timeout := some 1000 }

/-- A client report used for examples: no host, and a handler that fails. -/
def sampleReportClientRequest : ReportClientRequest :=
  { Host := "", Version := "v", Timeout := 1000, PersistHandler := some (fun _ => some "disk full") }

/-- An environment in which the run-context is cancelled at the second poll. -/
def cancelledEnv : Env :=
  { sampleEnv none with
    polls := [{ runDone := false, ctxDone := false, pickCtx := false, isReady := false },
              { runDone := true, ctxDone := false, pickCtx := false, isReady := false }] }

/-- What the gate gives back in `cancelledEnv`. -/
def cancelledGate : GateResult :=
  { err := some (NewSDKError ErrCode.ErrCodeInvalidStateError none
                  { format := "SDK context has destroyed", args := [] }),
    hasPrintedReady := 0, trace := [Event.IsReady, Event.Sleep] }

/-- An environment in which the transport call fails. -/
def timeoutEnv : Env :=
  { sampleEnv none with rpc := { pbResp := none, err := some "context deadline exceeded" } }

/-- An environment in which GetConnection fails: an error and no connection. -/
def acquisitionFailureEnv : Env :=
  { sampleEnv none with
    GetConnection := GetConnectionResult.fail none "connection refused" }

/-- A poll at which both the run-context and the deadline are ready and the runtime takes
the deadline case. -/
def bothReadyPoll : Poll :=
  { runDone := true, ctxDone := true, pickCtx := true, isReady := false }

/-! ## Auxiliary facts -/

theorem afterGate_pass {α : Type} (g : Connector) (env : Env) (onErr : SDKError → α)
    (rest : Outcome α × List Event) (gate : GateResult)
    (hgate : waitDiscoverReady g.hasPrintedReady env.polls = some gate)
    (hpass : gate.err = none) :
    afterGate g env onErr rest
      = some { out := rest.1, trace := gate.trace ++ rest.2,
               hasPrintedReady := gate.hasPrintedReady } := by
  simp [afterGate, hgate, hpass]

theorem afterGate_fail {α : Type} (g : Connector) (env : Env) (onErr : SDKError → α)
    (rest : Outcome α × List Event) (gate : GateResult) (e : SDKError)
    (hgate : waitDiscoverReady g.hasPrintedReady env.polls = some gate)
    (hfail : gate.err = some e) :
    afterGate g env onErr rest
      = some { out := Outcome.returned (onErr e), trace := gate.trace,
               hasPrintedReady := gate.hasPrintedReady } := by
  simp [afterGate, hgate, hfail]

/-- While polling, the gate only asks `IsReady`, sleeps and logs. -/
theorem waitDiscoverReady_trace (flag : Nat) (polls : List Poll) (gate : GateResult)
    (hgate : waitDiscoverReady flag polls = some gate) :
    ∀ e ∈ gate.trace, e = Event.IsReady ∨ e = Event.Sleep ∨ e = Event.LogInfo := by
  induction polls generalizing gate with
  | nil => simp [waitDiscoverReady] at hgate
  | cons p rest ih =>
    unfold waitDiscoverReady at hgate
    split at hgate
    · cases hgate; simp
    · cases hgate; simp
    · split at hgate
      · split at hgate <;> (cases hgate; simp)
      · split at hgate
        · cases hgate
        · rename_i r hr
          cases hgate
          intro e he
          simp only [List.mem_cons] at he
          rcases he with he | he | he
          · exact Or.inl he
          · exact Or.inr (Or.inl he)
          · exact ih r hr e he

/-- The only error the gate returns is the invalid-state error. -/
theorem waitDiscoverReady_err (flag : Nat) (polls : List Poll) (gate : GateResult) (e : SDKError)
    (hgate : waitDiscoverReady flag polls = some gate) (herr : gate.err = some e) :
    e = NewSDKError ErrCode.ErrCodeInvalidStateError none
          { format := "SDK context has destroyed", args := [] } := by
  induction polls generalizing gate with
  | nil => simp [waitDiscoverReady] at hgate
  | cons p rest ih =>
    unfold waitDiscoverReady at hgate
    split at hgate
    · cases hgate; simp at herr; exact herr.symm
    · cases hgate; simp at herr
    · split at hgate
      · split at hgate <;> (cases hgate; simp at herr)
      · split at hgate
        · cases hgate
        · rename_i r hr
          cases hgate
          exact ih r hr herr

theorem gate_filter (q : Event → Bool) (hq1 : q Event.IsReady = false)
    (hq2 : q Event.Sleep = false) (hq3 : q Event.LogInfo = false)
    (flag : Nat) (polls : List Poll) (gate : GateResult)
    (hgate : waitDiscoverReady flag polls = some gate) : gate.trace.filter q = [] := by
  rw [List.filter_eq_nil_iff]
  intro e he
  rcases waitDiscoverReady_trace flag polls gate hgate e he with h | h | h <;> simp [h, hq1, hq2, hq3]

theorem gate_reportSuccessCalls (flag : Nat) (polls : List Poll) (gate : GateResult)
    (hgate : waitDiscoverReady flag polls = some gate) : reportSuccessCalls gate.trace = [] :=
  gate_filter _ rfl rfl rfl flag polls gate hgate

/-- What `DeregisterInstance` returns once a response is received. -/
theorem DeregisterInstance_call_out (env : Env) (req : InstanceDeRegisterRequest)
    (conn : Connection) (timeout : Duration)
    (hconn : env.GetConnection = GetConnectionResult.ok conn)
    (htimeout : req.Timeout = some timeout)
    (hrpc : env.rpc.err = none) :
    (DeregisterInstance.call env req).1 = Outcome.returned
      (if Code_ExecuteSuccess ≠ GetCode env.rpc.pbResp ∧
          Code_NotFoundResource ≠ GetCode env.rpc.pbResp then
        some (NewSDKError
          (if env.ConvertServerErrorToRpcError (GetCode env.rpc.pbResp)
              = ErrCode.ErrCodeServerError
            then ErrCode.ErrCodeServerException else ErrCode.ErrCodeServerUserError) none
          { format := "fail to deregisterInstance, request %s, server code %d, reason %s, server %s",
            args := [FmtArg.deregisterReq req, FmtArg.num (GetCode env.rpc.pbResp),
                     FmtArg.str (GetInfo env.rpc.pbResp), FmtArg.connID conn.ConnID] })
      else none) := by
  simp only [DeregisterInstance.call, hconn, htimeout, hrpc]
  split_ifs <;> rfl

/-- What `Heartbeat` returns once a response is received. -/
theorem Heartbeat_call_out (env : Env) (req : InstanceHeartbeatRequest)
    (conn : Connection) (timeout : Duration)
    (hconn : env.GetConnection = GetConnectionResult.ok conn)
    (htimeout : req.Timeout = some timeout)
    (hrpc : env.rpc.err = none) :
    (Heartbeat.call env req).1 = Outcome.returned
      (if Code_ExecuteSuccess ≠ GetCode env.rpc.pbResp then
        some (NewSDKErrorWithServerInfo
          (if env.ConvertServerErrorToRpcError (GetCode env.rpc.pbResp)
              = ErrCode.ErrCodeServerError
            then ErrCode.ErrCodeServerException else ErrCode.ErrCodeServerUserError) none
          (GetCode env.rpc.pbResp) (GetInfo env.rpc.pbResp)
          { format := "fail to heartbeat, request %s, server error code is %d, error is %s, server %s",
            args := [FmtArg.heartbeatReq req, FmtArg.num (GetCode env.rpc.pbResp),
                     FmtArg.str (GetInfo env.rpc.pbResp), FmtArg.connID conn.ConnID] })
      else none) := by
  simp only [Heartbeat.call, hconn, htimeout, hrpc]
  split_ifs <;> rfl

/-- What `ReportClient` returns once a response is received. -/
theorem ReportClient_call_out (env : Env) (req : ReportClientRequest)
    (conn : Connection)
    (hconn : env.GetConnection = GetConnectionResult.ok conn)
    (hrpc : env.rpc.err = none) :
    (ReportClient.call env req).1 = Outcome.returned
      (if Code_ExecuteSuccess ≠ GetCode env.rpc.pbResp ∧
          Code_CMDBNotFindHost ≠ GetCode env.rpc.pbResp then
        { resp := none,
          err := some (NewSDKError
            (if env.ConvertServerErrorToRpcError (GetCode env.rpc.pbResp)
                = ErrCode.ErrCodeServerError
              then ErrCode.ErrCodeServerException else ErrCode.ErrCodeServerUserError) none
            { format := "fail to reportClient, server error code is %d, error is %s, connID %s",
              args := [FmtArg.num (GetCode env.rpc.pbResp), FmtArg.str (GetInfo env.rpc.pbResp),
                       FmtArg.connID conn.ConnID] }),
          req := hostDefaulted env req }
      else
        { resp := some (clientResponse env.rpc.pbResp), err := none,
          req := hostDefaulted env req }) := by
  simp only [ReportClient.call, hconn, hrpc, hostDefaulted, clientResponse]
  split_ifs <;> rfl

theorem gate_persistCalls (flag : Nat) (polls : List Poll) (gate : GateResult)
    (hgate : waitDiscoverReady flag polls = some gate) : persistCalls gate.trace = [] :=
  gate_filter _ rfl rfl rfl flag polls gate hgate

theorem gate_healthSignals (flag : Nat) (polls : List Poll) (gate : GateResult)
    (hgate : waitDiscoverReady flag polls = some gate) : healthSignals gate.trace = [] :=
  gate_filter _ rfl rfl rfl flag polls gate hgate

/-- The health signal of `RegisterInstance` once a response is received. -/
theorem RegisterInstance_healthSignals (g : Connector) (env : Env)
    (req : InstanceRegisterRequest) (header : List (String × String))
    (gate : GateResult) (conn : Connection) (timeout : Duration)
    (hgate : waitDiscoverReady g.hasPrintedReady env.polls = some gate)
    (hpass : gate.err = none)
    (hconn : env.GetConnection = GetConnectionResult.ok conn)
    (htimeout : req.Timeout = some timeout)
    (hrpc : env.rpc.err = none) :
    ∃ r, RegisterInstance g env req header = some r ∧
      healthSignals r.trace =
        [if GetCode env.rpc.pbResp ≠ Code_ExecuteSuccess ∧
            GetCode env.rpc.pbResp ≠ Code_ExistedResource ∧
            env.ConvertServerErrorToRpcError (GetCode env.rpc.pbResp)
              = ErrCode.ErrCodeServerError
          then Event.ReportFail conn.ConnID ErrCode.ErrCodeServerError
                 (Sub (env.clock 1) (env.clock 0))
          else Event.ReportSuccess conn.ConnID
                 (env.ConvertServerErrorToRpcError (GetCode env.rpc.pbResp))
                 (Sub (env.clock 1) (env.clock 0))] := by
  have hg := gate_healthSignals _ _ _ hgate
  unfold healthSignals at hg
  refine ⟨_, afterGate_pass g env _ _ gate hgate hpass, ?_⟩
  simp only [RegisterInstance.call, hconn, htimeout, hrpc]
  by_cases h1 : GetCode env.rpc.pbResp = Code_ExecuteSuccess
  · cases env.cancelNonNil <;> simp [h1, healthSignals, hg, deferred]
  · by_cases h2 : GetCode env.rpc.pbResp = Code_ExistedResource
    · cases env.cancelNonNil <;> simp [h2, healthSignals, hg, deferred]
    · by_cases h3 : env.ConvertServerErrorToRpcError (GetCode env.rpc.pbResp)
          = ErrCode.ErrCodeServerError
      · cases env.cancelNonNil <;>
          simp [h1, h2, h3, Ne.symm h1, Ne.symm h2, healthSignals, hg, deferred]
      · cases env.cancelNonNil <;>
          simp [h1, h2, h3, Ne.symm h1, Ne.symm h2, healthSignals, hg, deferred]

/-- The health signal of `DeregisterInstance` once a response is received. -/
theorem DeregisterInstance_healthSignals (g : Connector) (env : Env)
    (req : InstanceDeRegisterRequest)
    (gate : GateResult) (conn : Connection) (timeout : Duration)
    (hgate : waitDiscoverReady g.hasPrintedReady env.polls = some gate)
    (hpass : gate.err = none)
    (hconn : env.GetConnection = GetConnectionResult.ok conn)
    (htimeout : req.Timeout = some timeout)
    (hrpc : env.rpc.err = none) :
    ∃ r, DeregisterInstance g env req = some r ∧
      healthSignals r.trace =
        [if GetCode env.rpc.pbResp ≠ Code_ExecuteSuccess ∧
            GetCode env.rpc.pbResp ≠ Code_NotFoundResource ∧
            env.ConvertServerErrorToRpcError (GetCode env.rpc.pbResp)
              = ErrCode.ErrCodeServerError
          then Event.ReportFail conn.ConnID ErrCode.ErrCodeServerError
                 (Sub (env.clock 1) (env.clock 0))
          else Event.ReportSuccess conn.ConnID
                 (env.ConvertServerErrorToRpcError (GetCode env.rpc.pbResp))
                 (Sub (env.clock 1) (env.clock 0))] := by
  have hg := gate_healthSignals _ _ _ hgate
  unfold healthSignals at hg
  refine ⟨_, afterGate_pass g env _ _ gate hgate hpass, ?_⟩
  simp only [DeregisterInstance.call, hconn, htimeout, hrpc]
  by_cases h1 : GetCode env.rpc.pbResp = Code_ExecuteSuccess
  · cases env.cancelNonNil <;> simp [h1, healthSignals, hg, deferred]
  · by_cases h2 : GetCode env.rpc.pbResp = Code_NotFoundResource
    · cases env.cancelNonNil <;> simp [h2, healthSignals, hg, deferred]
    · by_cases h3 : env.ConvertServerErrorToRpcError (GetCode env.rpc.pbResp)
          = ErrCode.ErrCodeServerError
      · cases env.cancelNonNil <;>
          simp [h1, h2, h3, Ne.symm h1, Ne.symm h2, healthSignals, hg, deferred]
      · cases env.cancelNonNil <;>
          simp [h1, h2, h3, Ne.symm h1, Ne.symm h2, healthSignals, hg, deferred]

/-- The health signal of `Heartbeat` once a response is received. -/
theorem Heartbeat_healthSignals (g : Connector) (env : Env)
    (req : InstanceHeartbeatRequest)
    (gate : GateResult) (conn : Connection) (timeout : Duration)
    (hgate : waitDiscoverReady g.hasPrintedReady env.polls = some gate)
    (hpass : gate.err = none)
    (hconn : env.GetConnection = GetConnectionResult.ok conn)
    (htimeout : req.Timeout = some timeout)
    (hrpc : env.rpc.err = none) :
    ∃ r, Heartbeat g env req = some r ∧
      healthSignals r.trace =
        [if GetCode env.rpc.pbResp ≠ Code_ExecuteSuccess ∧
            env.ConvertServerErrorToRpcError (GetCode env.rpc.pbResp)
              = ErrCode.ErrCodeServerError
          then Event.ReportFail conn.ConnID ErrCode.ErrCodeServerError
                 (Sub (env.clock 1) (env.clock 0))
          else Event.ReportSuccess conn.ConnID
                 (env.ConvertServerErrorToRpcError (GetCode env.rpc.pbResp))
                 (Sub (env.clock 1) (env.clock 0))] := by
  have hg := gate_healthSignals _ _ _ hgate
  unfold healthSignals at hg
  refine ⟨_, afterGate_pass g env _ _ gate hgate hpass, ?_⟩
  simp only [Heartbeat.call, hconn, htimeout, hrpc]
  by_cases h1 : GetCode env.rpc.pbResp = Code_ExecuteSuccess
  · cases env.cancelNonNil <;> simp [h1, healthSignals, hg, deferred]
  · by_cases h3 : env.ConvertServerErrorToRpcError (GetCode env.rpc.pbResp)
        = ErrCode.ErrCodeServerError
    · cases env.cancelNonNil <;>
        simp [h1, h3, Ne.symm h1, healthSignals, hg, deferred]
    · cases env.cancelNonNil <;>
        simp [h1, h3, Ne.symm h1, healthSignals, hg, deferred]

/-- The health signal of `ReportClient` once a response is received. -/
theorem ReportClient_healthSignals (g : Connector) (env : Env)
    (req : ReportClientRequest)
    (gate : GateResult) (conn : Connection)
    (hgate : waitDiscoverReady g.hasPrintedReady env.polls = some gate)
    (hpass : gate.err = none)
    (hconn : env.GetConnection = GetConnectionResult.ok conn)
    (hrpc : env.rpc.err = none) :
    ∃ r, ReportClient g env req = some r ∧
      healthSignals r.trace =
        [if GetCode env.rpc.pbResp ≠ Code_ExecuteSuccess ∧
            GetCode env.rpc.pbResp ≠ Code_CMDBNotFindHost ∧
            env.ConvertServerErrorToRpcError (GetCode env.rpc.pbResp)
              = ErrCode.ErrCodeServerError
          then Event.ReportFail conn.ConnID ErrCode.ErrCodeServerError
                 (Sub env.valueCtxNow (env.clock 0))
          else Event.ReportSuccess conn.ConnID
                 (env.ConvertServerErrorToRpcError (GetCode env.rpc.pbResp))
                 (Sub env.valueCtxNow (env.clock 0))] := by
  have hg := gate_healthSignals _ _ _ hgate
  unfold healthSignals at hg
  refine ⟨_, afterGate_pass g env _ _ gate hgate hpass, ?_⟩
  simp only [ReportClient.call, hconn, hrpc]
  have hp : ∀ (x : ReportClientRequest),
      List.filter (fun e => match e with
          | Event.ReportSuccess _ _ _ => true
          | Event.ReportFail _ _ _ => true
          | _ => false)
        (match x.PersistHandler with
          | none => []
          | some handler =>
            match handler env.rpc.pbResp with
            | some _ => [Event.PersistHandler env.rpc.pbResp, Event.LogError]
            | none => [Event.PersistHandler env.rpc.pbResp]) = [] := by
    intro x
    rcases x.PersistHandler with _ | handler
    · rfl
    · rcases h : handler env.rpc.pbResp with _ | v <;> simp [h]
  by_cases h0 : req.Host.length = 0 <;>
  by_cases h1 : GetCode env.rpc.pbResp = Code_ExecuteSuccess
  · cases env.cancelNonNil <;> simp [h0, h1, healthSignals, hg, hp, deferred]
  · by_cases h2 : GetCode env.rpc.pbResp = Code_CMDBNotFindHost
    · cases env.cancelNonNil <;> simp [h0, h2, healthSignals, hg, hp, deferred]
    · by_cases h3 : env.ConvertServerErrorToRpcError (GetCode env.rpc.pbResp)
          = ErrCode.ErrCodeServerError
      · cases env.cancelNonNil <;>
          simp [h0, h1, h2, h3, Ne.symm h1, Ne.symm h2, healthSignals, hg, deferred]
      · cases env.cancelNonNil <;>
          simp [h0, h1, h2, h3, Ne.symm h1, Ne.symm h2, healthSignals, hg, deferred]
  · cases env.cancelNonNil <;> simp [h0, h1, healthSignals, hg, hp, deferred]
  · by_cases h2 : GetCode env.rpc.pbResp = Code_CMDBNotFindHost
    · cases env.cancelNonNil <;> simp [h0, h2, healthSignals, hg, hp, deferred]
    · by_cases h3 : env.ConvertServerErrorToRpcError (GetCode env.rpc.pbResp)
          = ErrCode.ErrCodeServerError
      · cases env.cancelNonNil <;>
          simp [h0, h1, h2, h3, Ne.symm h1, Ne.symm h2, healthSignals, hg, deferred]
      · cases env.cancelNonNil <;>
          simp [h0, h1, h2, h3, Ne.symm h1, Ne.symm h2, healthSignals, hg, deferred]

/-- What `RegisterInstance` returns once a response is received. -/
theorem RegisterInstance_call_out (env : Env) (req : InstanceRegisterRequest)
    (header : List (String × String)) (conn : Connection) (timeout : Duration)
    (hconn : env.GetConnection = GetConnectionResult.ok conn)
    (htimeout : req.Timeout = some timeout)
    (hrpc : env.rpc.err = none) :
    (RegisterInstance.call env req header).1 = Outcome.returned
      (if Code_ExecuteSuccess ≠ GetCode env.rpc.pbResp ∧
          Code_ExistedResource ≠ GetCode env.rpc.pbResp then
        (none, some (NewSDKError
          (if env.ConvertServerErrorToRpcError (GetCode env.rpc.pbResp)
              = ErrCode.ErrCodeServerError
            then ErrCode.ErrCodeServerException else ErrCode.ErrCodeServerUserError) none
          { format := "fail to registerInstance, request %s, server code %d, reason %s, server %s",
            args := [FmtArg.registerReq req, FmtArg.num (GetCode env.rpc.pbResp),
                     FmtArg.str (GetInfo env.rpc.pbResp), FmtArg.connID conn.ConnID] }))
      else
        (some { InstanceID := GetInstanceId env.rpc.pbResp,
                Existed := decide (Code_ExistedResource = GetCode env.rpc.pbResp) }, none)) := by
  simp only [RegisterInstance.call, hconn, htimeout, hrpc]
  split_ifs <;> rfl

theorem gate_releases (flag : Nat) (polls : List Poll) (gate : GateResult)
    (hgate : waitDiscoverReady flag polls = some gate) : releases gate.trace = [] :=
  gate_filter _ rfl rfl rfl flag polls gate hgate

theorem gate_acquisitions (flag : Nat) (polls : List Poll) (gate : GateResult)
    (hgate : waitDiscoverReady flag polls = some gate) : acquisitions gate.trace = [] :=
  gate_filter _ rfl rfl rfl flag polls gate hgate

theorem gate_transportCalls (flag : Nat) (polls : List Poll) (gate : GateResult)
    (hgate : waitDiscoverReady flag polls = some gate) : transportCalls gate.trace = [] :=
  gate_filter _ rfl rfl rfl flag polls gate hgate

/-- The last call of a trace that ends with the deferred calls is the release. -/
theorem getLast_deferred (tr : List Event) (b : Bool) (conn : Connection) (opKey : OpKey) :
    (tr ++ deferred b conn opKey).getLast? = some (Event.Release conn.ConnID opKey) := by
  unfold deferred
  rw [← List.append_assoc, List.getLast?_append]
  simp

/-- Lease balance of `RegisterInstance`. -/
theorem RegisterInstance_lease (g : Connector) (env : Env)
    (req : InstanceRegisterRequest) (header : List (String × String)) (gate : GateResult)
    (hgate : waitDiscoverReady g.hasPrintedReady env.polls = some gate) :
    ∃ r, RegisterInstance g env req header = some r ∧
      (∀ conn, gate.err = none → env.GetConnection = GetConnectionResult.ok conn →
        acquisitions r.trace
          = [Event.GetConnection OpKey.OpKeyRegisterInstance ClusterType.DiscoverCluster] ∧
        releases r.trace = [Event.Release conn.ConnID OpKey.OpKeyRegisterInstance] ∧
        r.trace.getLast? = some (Event.Release conn.ConnID OpKey.OpKeyRegisterInstance)) ∧
      (gate.err ≠ none → acquisitions r.trace = [] ∧ releases r.trace = []) ∧
      (∀ c err, gate.err = none → env.GetConnection = GetConnectionResult.fail c err →
        releases r.trace = []) := by
  have hg1 := gate_releases _ _ _ hgate
  have hg2 := gate_acquisitions _ _ _ hgate
  unfold releases at hg1
  unfold acquisitions at hg2
  rcases hge : gate.err with _ | e
  · refine ⟨_, afterGate_pass g env _ _ gate hgate hge, ?_, ?_, ?_⟩
    · intro conn _ hconn
      simp only [RegisterInstance.call, hconn]
      rcases ht : req.Timeout with _ | timeout
      · simp [acquisitions, releases, hg1, hg2]
      · rcases hr : env.rpc.err with _ | rerr
        · refine ⟨?_, ?_, ?_⟩
          · cases env.cancelNonNil <;> split_ifs <;>
              simp [acquisitions, hg2, deferred]
          · cases env.cancelNonNil <;> split_ifs <;>
              simp [releases, hg1, deferred]
          · simp only []
            split_ifs <;> rw [← List.append_assoc] <;> exact getLast_deferred _ _ _ _
        · refine ⟨?_, ?_, ?_⟩
          · cases env.cancelNonNil <;>
              simp [acquisitions, hg2, deferred, NetworkError]
          · cases env.cancelNonNil <;>
              simp [releases, hg1, deferred, NetworkError]
          · simp only []
            rw [← List.append_assoc]
            exact getLast_deferred _ _ _ _
    · intro h; exact absurd rfl h
    · intro c err _ hconn
      simp only [RegisterInstance.call, hconn]
      rcases c with _ | c <;> simp [releases, hg1, NetworkError]
  · refine ⟨_, afterGate_fail g env _ _ gate e hgate hge, ?_, ?_, ?_⟩
    · intro conn h; cases h
    · intro _
      exact ⟨gate_acquisitions _ _ _ hgate, gate_releases _ _ _ hgate⟩
    · intro c err h; cases h

/-- Lease balance of `DeregisterInstance`. -/
theorem DeregisterInstance_lease (g : Connector) (env : Env)
    (req : InstanceDeRegisterRequest) (gate : GateResult)
    (hgate : waitDiscoverReady g.hasPrintedReady env.polls = some gate) :
    ∃ r, DeregisterInstance g env req = some r ∧
      (∀ conn, gate.err = none → env.GetConnection = GetConnectionResult.ok conn →
        acquisitions r.trace
          = [Event.GetConnection OpKey.OpKeyDeregisterInstance ClusterType.DiscoverCluster] ∧
        releases r.trace = [Event.Release conn.ConnID OpKey.OpKeyDeregisterInstance] ∧
        r.trace.getLast? = some (Event.Release conn.ConnID OpKey.OpKeyDeregisterInstance)) ∧
      (gate.err ≠ none → acquisitions r.trace = [] ∧ releases r.trace = []) ∧
      (∀ c err, gate.err = none → env.GetConnection = GetConnectionResult.fail c err →
        releases r.trace = []) := by
  have hg1 := gate_releases _ _ _ hgate
  have hg2 := gate_acquisitions _ _ _ hgate
  unfold releases at hg1
  unfold acquisitions at hg2
  rcases hge : gate.err with _ | e
  · refine ⟨_, afterGate_pass g env _ _ gate hgate hge, ?_, ?_, ?_⟩
    · intro conn _ hconn
      simp only [DeregisterInstance.call, hconn]
      rcases ht : req.Timeout with _ | timeout
      · simp [acquisitions, releases, hg1, hg2]
      · rcases hr : env.rpc.err with _ | rerr
        · refine ⟨?_, ?_, ?_⟩
          · cases env.cancelNonNil <;> split_ifs <;>
              simp [acquisitions, hg2, deferred]
          · cases env.cancelNonNil <;> split_ifs <;>
              simp [releases, hg1, deferred]
          · simp only []
            split_ifs <;> rw [← List.append_assoc] <;> exact getLast_deferred _ _ _ _
        · refine ⟨?_, ?_, ?_⟩
          · cases env.cancelNonNil <;>
              simp [acquisitions, hg2, deferred, NetworkError]
          · cases env.cancelNonNil <;>
              simp [releases, hg1, deferred, NetworkError]
          · simp only []
            rw [← List.append_assoc]
            exact getLast_deferred _ _ _ _
    · intro h; exact absurd rfl h
    · intro c err _ hconn
      simp only [DeregisterInstance.call, hconn]
      simp [releases, hg1]
  · refine ⟨_, afterGate_fail g env _ _ gate e hgate hge, ?_, ?_, ?_⟩
    · intro conn h; cases h
    · intro _
      exact ⟨gate_acquisitions _ _ _ hgate, gate_releases _ _ _ hgate⟩
    · intro c err h; cases h

/-- Lease balance of `Heartbeat`. -/
theorem Heartbeat_lease (g : Connector) (env : Env)
    (req : InstanceHeartbeatRequest) (gate : GateResult)
    (hgate : waitDiscoverReady g.hasPrintedReady env.polls = some gate) :
    ∃ r, Heartbeat g env req = some r ∧
      (∀ conn, gate.err = none → env.GetConnection = GetConnectionResult.ok conn →
        acquisitions r.trace
          = [Event.GetConnection OpKey.OpKeyInstanceHeartbeat ClusterType.HealthCheckCluster] ∧
        releases r.trace = [Event.Release conn.ConnID OpKey.OpKeyInstanceHeartbeat] ∧
        r.trace.getLast? = some (Event.Release conn.ConnID OpKey.OpKeyInstanceHeartbeat)) ∧
      (gate.err ≠ none → acquisitions r.trace = [] ∧ releases r.trace = []) ∧
      (∀ c err, gate.err = none → env.GetConnection = GetConnectionResult.fail c err →
        releases r.trace = []) := by
  have hg1 := gate_releases _ _ _ hgate
  have hg2 := gate_acquisitions _ _ _ hgate
  unfold releases at hg1
  unfold acquisitions at hg2
  rcases hge : gate.err with _ | e
  · refine ⟨_, afterGate_pass g env _ _ gate hgate hge, ?_, ?_, ?_⟩
    · intro conn _ hconn
      simp only [Heartbeat.call, hconn]
      rcases ht : req.Timeout with _ | timeout
      · simp [acquisitions, releases, hg1, hg2]
      · rcases hr : env.rpc.err with _ | rerr
        · refine ⟨?_, ?_, ?_⟩
          · cases env.cancelNonNil <;> split_ifs <;>
              simp [acquisitions, hg2, deferred]
          · cases env.cancelNonNil <;> split_ifs <;>
              simp [releases, hg1, deferred]
          · simp only []
            split_ifs <;> rw [← List.append_assoc] <;> exact getLast_deferred _ _ _ _
        · refine ⟨?_, ?_, ?_⟩
          · cases env.cancelNonNil <;>
              simp [acquisitions, hg2, deferred, NetworkError]
          · cases env.cancelNonNil <;>
              simp [releases, hg1, deferred, NetworkError]
          · simp only []
            rw [← List.append_assoc]
            exact getLast_deferred _ _ _ _
    · intro h; exact absurd rfl h
    · intro c err _ hconn
      simp only [Heartbeat.call, hconn]
      simp [releases, hg1]
  · refine ⟨_, afterGate_fail g env _ _ gate e hgate hge, ?_, ?_, ?_⟩
    · intro conn h; cases h
    · intro _
      exact ⟨gate_acquisitions _ _ _ hgate, gate_releases _ _ _ hgate⟩
    · intro c err h; cases h

/-- The handler's events are no pool calls. -/
theorem persist_no_lease (pbResp : Option Response)
    (h : Option (Option Response → Option Error)) :
    releases (match h with
      | none => []
      | some handler =>
        match handler pbResp with
        | some _ => [Event.PersistHandler pbResp, Event.LogError]
        | none => [Event.PersistHandler pbResp]) = [] ∧
    acquisitions (match h with
      | none => []
      | some handler =>
        match handler pbResp with
        | some _ => [Event.PersistHandler pbResp, Event.LogError]
        | none => [Event.PersistHandler pbResp]) = [] := by
  rcases h with _ | handler
  · exact ⟨rfl, rfl⟩
  · rcases hh : handler pbResp with _ | v <;> simp [hh, releases, acquisitions]

/-- Lease balance of `ReportClient`. -/
theorem ReportClient_lease (g : Connector) (env : Env)
    (req : ReportClientRequest) (gate : GateResult)
    (hgate : waitDiscoverReady g.hasPrintedReady env.polls = some gate) :
    ∃ r, ReportClient g env req = some r ∧
      (∀ conn, gate.err = none → env.GetConnection = GetConnectionResult.ok conn →
        acquisitions r.trace
          = [Event.GetConnection OpKey.OpKeyReportClient ClusterType.DiscoverCluster] ∧
        releases r.trace = [Event.Release conn.ConnID OpKey.OpKeyReportClient] ∧
        r.trace.getLast? = some (Event.Release conn.ConnID OpKey.OpKeyReportClient)) ∧
      (gate.err ≠ none → acquisitions r.trace = [] ∧ releases r.trace = []) ∧
      (∀ c err, gate.err = none → env.GetConnection = GetConnectionResult.fail c err →
        releases r.trace = []) := by
  have hg1 := gate_releases _ _ _ hgate
  have hg2 := gate_acquisitions _ _ _ hgate
  unfold releases at hg1
  unfold acquisitions at hg2
  rcases hge : gate.err with _ | e
  · refine ⟨_, afterGate_pass g env _ _ gate hgate hge, ?_, ?_, ?_⟩
    · intro conn _ hconn
      simp only [ReportClient.call, hconn]
      have hp := persist_no_lease env.rpc.pbResp
      unfold releases acquisitions at hp
      rcases hr : env.rpc.err with _ | rerr
      · refine ⟨?_, ?_, ?_⟩
        · cases env.cancelNonNil <;> split_ifs <;>
            simp [acquisitions, hg2, deferred, (hp _).2]
        · cases env.cancelNonNil <;> split_ifs <;>
            simp [releases, hg1, deferred, (hp _).1]
        · simp only []
          split_ifs <;> simp only [← List.append_assoc] <;> exact getLast_deferred _ _ _ _
      · refine ⟨?_, ?_, ?_⟩
        · cases env.cancelNonNil <;> split_ifs <;>
            simp [acquisitions, hg2, deferred, NetworkError]
        · cases env.cancelNonNil <;> split_ifs <;>
            simp [releases, hg1, deferred, NetworkError]
        · simp only []
          simp only [← List.append_assoc]
          exact getLast_deferred _ _ _ _
    · intro h; exact absurd rfl h
    · intro c err _ hconn
      simp only [ReportClient.call, hconn]
      simp [releases, hg1]
  · refine ⟨_, afterGate_fail g env _ _ gate e hgate hge, ?_, ?_, ?_⟩
    · intro conn h; cases h
    · intro _
      exact ⟨gate_acquisitions _ _ _ hgate, gate_releases _ _ _ hgate⟩
    · intro c err h; cases h

/-- A transport failure in `RegisterInstance`. -/
theorem RegisterInstance_transport_failure (g : Connector) (env : Env)
    (req : InstanceRegisterRequest) (header : List (String × String))
    (gate : GateResult) (conn : Connection) (timeout : Duration) (rerr : Error)
    (hgate : waitDiscoverReady g.hasPrintedReady env.polls = some gate)
    (hpass : gate.err = none)
    (hconn : env.GetConnection = GetConnectionResult.ok conn)
    (htimeout : req.Timeout = some timeout)
    (hrpc : env.rpc.err = some rerr) :
    ∃ r e, RegisterInstance g env req header = some r ∧
      r.out = Outcome.returned (none, some e) ∧
      e.errCode = ErrCode.ErrCodeNetworkError ∧ e.cause = some rerr ∧
      healthSignals r.trace =
        [Event.ReportFail conn.ConnID ErrCode.ErrorCodeRpcError
           (Sub (env.clock 2) (env.clock 0))] ∧
      reportSuccessCalls r.trace = [] ∧
      releases r.trace = [Event.Release conn.ConnID OpKey.OpKeyRegisterInstance] ∧
      (∀ pbResp convert,
        RegisterInstance g (withResponse env pbResp convert) req header = some r) := by
  have hg1 := gate_healthSignals _ _ _ hgate
  have hg2 := gate_reportSuccessCalls _ _ _ hgate
  have hg3 := gate_releases _ _ _ hgate
  unfold healthSignals at hg1
  unfold reportSuccessCalls at hg2
  unfold releases at hg3
  have ho : (RegisterInstance.call env req header).1 = Outcome.returned
      (none, some (NewSDKError ErrCode.ErrCodeNetworkError (some rerr)
        { format := "fail to registerInstance, request %s, reason is fail to send request, reqID %s, server %s",
          args := [FmtArg.registerReq req, FmtArg.str env.reqID,
                   FmtArg.connID conn.ConnID] })) := by
    simp only [RegisterInstance.call, hconn, htimeout, hrpc, NetworkError, Outcome.map]
  refine ⟨_, _, afterGate_pass g env _ _ gate hgate hpass, ho, rfl, rfl, ?_, ?_, ?_, ?_⟩
  · simp only [RegisterInstance.call, hconn, htimeout, hrpc, NetworkError]
    cases env.cancelNonNil <;> simp [healthSignals, hg1, deferred]
  · simp only [RegisterInstance.call, hconn, htimeout, hrpc, NetworkError]
    cases env.cancelNonNil <;> simp [reportSuccessCalls, hg2, deferred]
  · simp only [RegisterInstance.call, hconn, htimeout, hrpc, NetworkError]
    cases env.cancelNonNil <;> simp [releases, hg3, deferred]
  · intro pbResp convert
    have hgate2 : waitDiscoverReady g.hasPrintedReady (withResponse env pbResp convert).polls
        = some gate := hgate
    rw [RegisterInstance, afterGate_pass g _ _ _ gate hgate2 hpass]
    simp only [RegisterInstance.call, withResponse, hconn, htimeout, hrpc]

/-- A transport failure in `DeregisterInstance`. -/
theorem DeregisterInstance_transport_failure (g : Connector) (env : Env)
    (req : InstanceDeRegisterRequest)
    (gate : GateResult) (conn : Connection) (timeout : Duration) (rerr : Error)
    (hgate : waitDiscoverReady g.hasPrintedReady env.polls = some gate)
    (hpass : gate.err = none)
    (hconn : env.GetConnection = GetConnectionResult.ok conn)
    (htimeout : req.Timeout = some timeout)
    (hrpc : env.rpc.err = some rerr) :
    ∃ r e, DeregisterInstance g env req = some r ∧
      r.out = Outcome.returned (some e) ∧
      e.errCode = ErrCode.ErrCodeNetworkError ∧ e.cause = some rerr ∧
      healthSignals r.trace =
        [Event.ReportFail conn.ConnID ErrCode.ErrorCodeRpcError
           (Sub (env.clock 2) (env.clock 0))] ∧
      reportSuccessCalls r.trace = [] ∧
      releases r.trace = [Event.Release conn.ConnID OpKey.OpKeyDeregisterInstance] ∧
      (∀ pbResp convert,
        DeregisterInstance g (withResponse env pbResp convert) req = some r) := by
  have hg1 := gate_healthSignals _ _ _ hgate
  have hg2 := gate_reportSuccessCalls _ _ _ hgate
  have hg3 := gate_releases _ _ _ hgate
  unfold healthSignals at hg1
  unfold reportSuccessCalls at hg2
  unfold releases at hg3
  have ho : (DeregisterInstance.call env req).1 = Outcome.returned
      (some (NewSDKError ErrCode.ErrCodeNetworkError (some rerr)
        { format := "fail to deregisterInstance, request %s, reason is fail to send request, reqID %s, server %s",
          args := [FmtArg.deregisterReq req, FmtArg.str env.reqID,
                   FmtArg.connID conn.ConnID] })) := by
    simp only [DeregisterInstance.call, hconn, htimeout, hrpc, NetworkError, Outcome.map]
  refine ⟨_, _, afterGate_pass g env _ _ gate hgate hpass, ho, rfl, rfl, ?_, ?_, ?_, ?_⟩
  · simp only [DeregisterInstance.call, hconn, htimeout, hrpc, NetworkError]
    cases env.cancelNonNil <;> simp [healthSignals, hg1, deferred]
  · simp only [DeregisterInstance.call, hconn, htimeout, hrpc, NetworkError]
    cases env.cancelNonNil <;> simp [reportSuccessCalls, hg2, deferred]
  · simp only [DeregisterInstance.call, hconn, htimeout, hrpc, NetworkError]
    cases env.cancelNonNil <;> simp [releases, hg3, deferred]
  · intro pbResp convert
    have hgate2 : waitDiscoverReady g.hasPrintedReady (withResponse env pbResp convert).polls
        = some gate := hgate
    rw [DeregisterInstance, afterGate_pass g _ _ _ gate hgate2 hpass]
    simp only [DeregisterInstance.call, withResponse, hconn, htimeout, hrpc]

/-- A transport failure in `Heartbeat`. -/
theorem Heartbeat_transport_failure (g : Connector) (env : Env)
    (req : InstanceHeartbeatRequest)
    (gate : GateResult) (conn : Connection) (timeout : Duration) (rerr : Error)
    (hgate : waitDiscoverReady g.hasPrintedReady env.polls = some gate)
    (hpass : gate.err = none)
    (hconn : env.GetConnection = GetConnectionResult.ok conn)
    (htimeout : req.Timeout = some timeout)
    (hrpc : env.rpc.err = some rerr) :
    ∃ r e, Heartbeat g env req = some r ∧
      r.out = Outcome.returned (some e) ∧
      e.errCode = ErrCode.ErrCodeNetworkError ∧ e.cause = some rerr ∧
      healthSignals r.trace =
        [Event.ReportFail conn.ConnID ErrCode.ErrorCodeRpcError
           (Sub (env.clock 2) (env.clock 0))] ∧
      reportSuccessCalls r.trace = [] ∧
      releases r.trace = [Event.Release conn.ConnID OpKey.OpKeyInstanceHeartbeat] ∧
      (∀ pbResp convert,
        Heartbeat g (withResponse env pbResp convert) req = some r) := by
  have hg1 := gate_healthSignals _ _ _ hgate
  have hg2 := gate_reportSuccessCalls _ _ _ hgate
  have hg3 := gate_releases _ _ _ hgate
  unfold healthSignals at hg1
  unfold reportSuccessCalls at hg2
  unfold releases at hg3
  have ho : (Heartbeat.call env req).1 = Outcome.returned
      (some (NewSDKError ErrCode.ErrCodeNetworkError (some rerr)
        { format := "fail to heartbeat, request %s, reason is fail to send request, reqID %s, server %s",
          args := [FmtArg.heartbeatReq req, FmtArg.str env.reqID,
                   FmtArg.connID conn.ConnID] })) := by
    simp only [Heartbeat.call, hconn, htimeout, hrpc, NetworkError, Outcome.map]
  refine ⟨_, _, afterGate_pass g env _ _ gate hgate hpass, ho, rfl, rfl, ?_, ?_, ?_, ?_⟩
  · simp only [Heartbeat.call, hconn, htimeout, hrpc, NetworkError]
    cases env.cancelNonNil <;> simp [healthSignals, hg1, deferred]
  · simp only [Heartbeat.call, hconn, htimeout, hrpc, NetworkError]
    cases env.cancelNonNil <;> simp [reportSuccessCalls, hg2, deferred]
  · simp only [Heartbeat.call, hconn, htimeout, hrpc, NetworkError]
    cases env.cancelNonNil <;> simp [releases, hg3, deferred]
  · intro pbResp convert
    have hgate2 : waitDiscoverReady g.hasPrintedReady (withResponse env pbResp convert).polls
        = some gate := hgate
    rw [Heartbeat, afterGate_pass g _ _ _ gate hgate2 hpass]
    simp only [Heartbeat.call, withResponse, hconn, htimeout, hrpc]

/-- A transport failure in `ReportClient`. -/
theorem ReportClient_transport_failure (g : Connector) (env : Env)
    (req : ReportClientRequest)
    (gate : GateResult) (conn : Connection) (rerr : Error)
    (hgate : waitDiscoverReady g.hasPrintedReady env.polls = some gate)
    (hpass : gate.err = none)
    (hconn : env.GetConnection = GetConnectionResult.ok conn)
    (hrpc : env.rpc.err = some rerr) :
    ∃ r res e, ReportClient g env req = some r ∧
      r.out = Outcome.returned res ∧ res.resp = none ∧ res.err = some e ∧
      e.errCode = ErrCode.ErrCodeNetworkError ∧ e.cause = some rerr ∧
      healthSignals r.trace =
        [Event.ReportFail conn.ConnID ErrCode.ErrorCodeRpcError
           (Sub (env.clock 1) (env.clock 0))] ∧
      reportSuccessCalls r.trace = [] ∧
      releases r.trace = [Event.Release conn.ConnID OpKey.OpKeyReportClient] ∧
      (∀ pbResp convert,
        ReportClient g (withResponse env pbResp convert) req = some r) := by
  have hg1 := gate_healthSignals _ _ _ hgate
  have hg2 := gate_reportSuccessCalls _ _ _ hgate
  have hg3 := gate_releases _ _ _ hgate
  unfold healthSignals at hg1
  unfold reportSuccessCalls at hg2
  unfold releases at hg3
  have ho : (ReportClient.call env req).1 = Outcome.returned
      { resp := none,
        err := some (NewSDKError ErrCode.ErrCodeNetworkError (some rerr)
          { format := "fail to send request, opKey %s, reqID %s, connID %s",
            args := [FmtArg.opKey OpKey.OpKeyReportClient, FmtArg.str env.reqID,
                     FmtArg.connID conn.ConnID] }),
        req := hostDefaulted env req } := by
    simp only [ReportClient.call, hconn, hrpc, NetworkError, Outcome.map, hostDefaulted]
  refine ⟨_, _, _, afterGate_pass g env _ _ gate hgate hpass, ho, rfl, rfl, rfl, rfl,
    ?_, ?_, ?_, ?_⟩
  · simp only [ReportClient.call, hconn, hrpc, NetworkError]
    cases env.cancelNonNil <;> split_ifs <;> simp [healthSignals, hg1, deferred]
  · simp only [ReportClient.call, hconn, hrpc, NetworkError]
    cases env.cancelNonNil <;> split_ifs <;> simp [reportSuccessCalls, hg2, deferred]
  · simp only [ReportClient.call, hconn, hrpc, NetworkError]
    cases env.cancelNonNil <;> split_ifs <;> simp [releases, hg3, deferred]
  · intro pbResp convert
    have hgate2 : waitDiscoverReady g.hasPrintedReady (withResponse env pbResp convert).polls
        = some gate := hgate
    rw [ReportClient, afterGate_pass g _ _ _ gate hgate2 hpass]
    simp only [ReportClient.call, withResponse, hconn, hrpc]

theorem host_empty_iff (s : String) : s.length = 0 ↔ s = "" := by
  constructor
  · intro h
    cases s with
    | mk data =>
      have : data = [] := List.length_eq_zero.mp h
      subst this
      rfl
  · intro h
    subst h
    rfl

/-- An error of the gate means some poll saw the run-context cancelled. -/
theorem waitDiscoverReady_err_cancelled (flag : Nat) (polls : List Poll) (gate : GateResult)
    (e : SDKError) (hgate : waitDiscoverReady flag polls = some gate)
    (herr : gate.err = some e) : ∃ q ∈ polls, q.runDone = true := by
  induction polls generalizing gate with
  | nil => simp [waitDiscoverReady] at hgate
  | cons p rest ih =>
    unfold waitDiscoverReady at hgate
    split at hgate
    · rename_i hsel
      refine ⟨p, List.mem_cons_self _ _, ?_⟩
      unfold select at hsel
      rcases hr : p.runDone with _ | _
      · simp [hr] at hsel
        split_ifs at hsel
      · rfl
    · cases hgate; simp at herr
    · split at hgate
      · split at hgate <;> (cases hgate; simp at herr)
      · split at hgate
        · cases hgate
        · rename_i r hr
          cases hgate
          obtain ⟨q, hq, hq2⟩ := ih r hr herr
          exact ⟨q, List.mem_cons_of_mem _ hq, hq2⟩

/-- The gate returns as soon as some poll has a ready channel or a ready pool. -/
theorem waitDiscoverReady_returns (flag : Nat) (polls : List Poll)
    (h : ∃ q ∈ polls, q.runDone = true ∨ q.ctxDone = true ∨ q.isReady = true) :
    ∃ gate, waitDiscoverReady flag polls = some gate := by
  induction polls with
  | nil => obtain ⟨q, hq, _⟩ := h; cases hq
  | cons p rest ih =>
    unfold waitDiscoverReady
    split
    · exact ⟨_, rfl⟩
    · exact ⟨_, rfl⟩
    · rename_i hsel
      split
      · split <;> exact ⟨_, rfl⟩
      · rename_i hready
        have hp : p.runDone = false ∧ p.ctxDone = false := by
          unfold select at hsel
          rcases hr : p.runDone with _ | _ <;> rcases hc : p.ctxDone with _ | _ <;>
            simp [hr, hc] at hsel ⊢
          split_ifs at hsel
        obtain ⟨q, hq, hq2⟩ := h
        rcases List.mem_cons.mp hq with hqp | hqr
        · subst hqp
          rcases hq2 with h1 | h1 | h1
          · rw [hp.1] at h1; cases h1
          · rw [hp.2] at h1; cases h1
          · exact absurd h1 hready
        · obtain ⟨gate, hg⟩ := ih ⟨q, hqr, hq2⟩
          rw [hg]
          exact ⟨_, rfl⟩

theorem gate_clientInfoCalls (flag : Nat) (polls : List Poll) (gate : GateResult)
    (hgate : waitDiscoverReady flag polls = some gate) : clientInfoCalls gate.trace = [] :=
  gate_filter _ rfl rfl rfl flag polls gate hgate

/-- The handler's events are neither transport calls nor `GetClientInfo` calls. -/
theorem persist_no_transport (pbResp : Option Response)
    (h : Option (Option Response → Option Error)) :
    transportCalls (match h with
      | none => []
      | some handler =>
        match handler pbResp with
        | some _ => [Event.PersistHandler pbResp, Event.LogError]
        | none => [Event.PersistHandler pbResp]) = [] ∧
    clientInfoCalls (match h with
      | none => []
      | some handler =>
        match handler pbResp with
        | some _ => [Event.PersistHandler pbResp, Event.LogError]
        | none => [Event.PersistHandler pbResp]) = [] := by
  rcases h with _ | handler
  · exact ⟨rfl, rfl⟩
  · rcases hh : handler pbResp with _ | v <;> simp [hh, transportCalls, clientInfoCalls]

/-- Every execution of `ReportClient.call` on a leased connection returns, leaving the
request host-defaulted. -/
theorem ReportClient_call_req (env : Env) (req : ReportClientRequest) (conn : Connection)
    (hconn : env.GetConnection = GetConnectionResult.ok conn) :
    ∃ res, (ReportClient.call env req).1 = Outcome.returned res ∧
      res.req = hostDefaulted env req := by
  simp only [ReportClient.call, hconn, hostDefaulted, NetworkError, Outcome.map]
  rcases env.rpc.err with _ | rerr
  · simp only []
    split_ifs <;> exact ⟨_, rfl, rfl⟩
  · exact ⟨_, rfl, rfl⟩

/-- The transport and client-info calls of `ReportClient.call` on a leased connection. -/
theorem ReportClient_call_encoding (env : Env) (req : ReportClientRequest) (conn : Connection)
    (hconn : env.GetConnection = GetConnectionResult.ok conn) :
    transportCalls (ReportClient.call env req).2
      = [Event.rpc conn.ConnID env.reqID req.Timeout
          (RpcCall.ReportClient (hostDefaulted env req).Host (hostDefaulted env req).Version)] ∧
    clientInfoCalls (ReportClient.call env req).2
      = if req.Host.length = 0 then [Event.GetClientInfo] else [] := by
  have hp := persist_no_transport env.rpc.pbResp
  unfold transportCalls clientInfoCalls at hp
  simp only [ReportClient.call, hconn, hostDefaulted, NetworkError]
  by_cases h0 : req.Host.length = 0
  · simp only [h0, decide_True, if_true, ↓reduceIte]
    rcases env.rpc.err with _ | rerr
    · constructor
      · cases env.cancelNonNil <;> split_ifs <;>
          simp [transportCalls, deferred, (hp _).1]
      · cases env.cancelNonNil <;> split_ifs <;>
          simp [clientInfoCalls, deferred, (hp _).2]
    · constructor
      · cases env.cancelNonNil <;> simp [transportCalls, deferred]
      · cases env.cancelNonNil <;> simp [clientInfoCalls, deferred]
  · simp only [h0, decide_False, Bool.false_eq_true, if_false, ↓reduceIte]
    rcases env.rpc.err with _ | rerr
    · constructor
      · cases env.cancelNonNil <;> split_ifs <;>
          simp [transportCalls, deferred, (hp _).1]
      · cases env.cancelNonNil <;> split_ifs <;>
          simp [clientInfoCalls, deferred, (hp _).2]
    · constructor
      · cases env.cancelNonNil <;> simp [transportCalls, deferred]
      · cases env.cancelNonNil <;> simp [clientInfoCalls, deferred]

/-! ## The claims -/

/-- C1. RegisterInstance, when the readiness gate passes, GetConnection succeeds and the
transport call returns a response: code execute-success gives a nil error and a response
with Existed = false, code existed-resource gives a nil error and a response with
Existed = true, in both cases InstanceID is the instance id of the server response and
ReportSuccess is called exactly once; every other code gives a nil response and a non-nil
error. -/
theorem RegisterInstance_result_by_code (g : Connector) (env : Env)
    (req : InstanceRegisterRequest) (header : List (String × String))
    (gate : GateResult) (conn : Connection) (timeout : Duration)
    (hgate : waitDiscoverReady g.hasPrintedReady env.polls = some gate)
    (hpass : gate.err = none)
    (hconn : env.GetConnection = GetConnectionResult.ok conn)
    (htimeout : req.Timeout = some timeout)
    (hrpc : env.rpc.err = none) :
    ∃ r, RegisterInstance g env req header = some r ∧
      (GetCode env.rpc.pbResp = Code_ExecuteSuccess →
        r.out = Outcome.returned
          (some { InstanceID := GetInstanceId env.rpc.pbResp, Existed := false }, none) ∧
        (reportSuccessCalls r.trace).length = 1) ∧
      (GetCode env.rpc.pbResp = Code_ExistedResource →
        r.out = Outcome.returned
          (some { InstanceID := GetInstanceId env.rpc.pbResp, Existed := true }, none) ∧
        (reportSuccessCalls r.trace).length = 1) ∧
      (GetCode env.rpc.pbResp ≠ Code_ExecuteSuccess →
        GetCode env.rpc.pbResp ≠ Code_ExistedResource →
        ∃ e, r.out = Outcome.returned (none, some e)) := by
  have hg := gate_reportSuccessCalls _ _ _ hgate
  unfold reportSuccessCalls at hg
  refine ⟨_, afterGate_pass g env _ _ gate hgate hpass, ?_, ?_, ?_⟩
  · intro hc
    cases hcancel : env.cancelNonNil <;>
      simp [RegisterInstance.call, hconn, htimeout, hrpc, hc, reportSuccessCalls, deferred,
        hg, hcancel, Code_ExecuteSuccess, Code_ExistedResource]
  · intro hc
    cases hcancel : env.cancelNonNil <;>
      simp [RegisterInstance.call, hconn, htimeout, hrpc, hc, reportSuccessCalls, deferred,
        hg, hcancel, Code_ExecuteSuccess, Code_ExistedResource]
  · intro h1 h2
    simp only [RegisterInstance.call, hconn, htimeout, hrpc]
    rw [if_pos ⟨Ne.symm h1, Ne.symm h2⟩]
    split_ifs <;> exact ⟨_, rfl⟩

/-- Scenario A: code execute-success with instance id "X". -/
theorem RegisterInstance_result_by_code_witness :
    ∃ r, RegisterInstance { hasPrintedReady := 0 } (sampleEnv (sampleResponse 200000))
          sampleRegisterRequest [] = some r ∧
      r.out = Outcome.returned (some { InstanceID := "X", Existed := false }, none) ∧
      (reportSuccessCalls r.trace).length = 1 := by
  obtain ⟨r, hr, h, _, _⟩ := RegisterInstance_result_by_code { hasPrintedReady := 0 }
    (sampleEnv (sampleResponse 200000)) sampleRegisterRequest [] sampleGate sampleConn 1000
    rfl rfl rfl rfl rfl
  exact ⟨r, hr, h rfl⟩

/-- C2. DeregisterInstance, when the readiness gate passes, GetConnection succeeds and the
transport call returns a response: the returned error is nil exactly when the response code
is execute-success or not-found-resource; every other code, existed-resource and
CMDB-host-not-found among them, gives a non-nil error. -/
theorem DeregisterInstance_nil_iff (g : Connector) (env : Env)
    (req : InstanceDeRegisterRequest)
    (gate : GateResult) (conn : Connection) (timeout : Duration)
    (hgate : waitDiscoverReady g.hasPrintedReady env.polls = some gate)
    (hpass : gate.err = none)
    (hconn : env.GetConnection = GetConnectionResult.ok conn)
    (htimeout : req.Timeout = some timeout)
    (hrpc : env.rpc.err = none) :
    ∃ r err, DeregisterInstance g env req = some r ∧ r.out = Outcome.returned err ∧
      (err = none ↔ (GetCode env.rpc.pbResp = Code_ExecuteSuccess ∨
                      GetCode env.rpc.pbResp = Code_NotFoundResource)) ∧
      (GetCode env.rpc.pbResp = Code_ExistedResource ∨
        GetCode env.rpc.pbResp = Code_CMDBNotFindHost → err ≠ none) := by
  refine ⟨_, _, afterGate_pass g env _ _ gate hgate hpass,
    DeregisterInstance_call_out env req conn timeout hconn htimeout hrpc, ?_, ?_⟩
  · by_cases h1 : GetCode env.rpc.pbResp = Code_ExecuteSuccess
    · simp [h1]
    · by_cases h2 : GetCode env.rpc.pbResp = Code_NotFoundResource
      · simp [h2]
      · simp [h1, h2, Ne.symm h1, Ne.symm h2, eq_comm]
  · rintro (h | h) <;>
      simp [h, Code_ExecuteSuccess, Code_NotFoundResource, Code_ExistedResource,
        Code_CMDBNotFindHost]

/-- Code not-found-resource on a deregistration: nil error. -/
theorem DeregisterInstance_nil_iff_witness :
    ∃ r, DeregisterInstance { hasPrintedReady := 0 } (sampleEnv (sampleResponse 400202))
          sampleDeRegisterRequest = some r ∧
      r.out = Outcome.returned none := by
  obtain ⟨r, err, hr, ho, hiff, _⟩ := DeregisterInstance_nil_iff { hasPrintedReady := 0 }
    (sampleEnv (sampleResponse 400202)) sampleDeRegisterRequest sampleGate sampleConn 1000
    rfl rfl rfl rfl rfl
  have he : err = none := hiff.mpr (Or.inr rfl)
  subst he
  exact ⟨r, hr, ho⟩

/-- C3. Heartbeat, when the readiness gate passes, GetConnection succeeds and the transport
call returns a response: the returned error is nil exactly when the response code is
execute-success; for every other code, existed-resource, not-found-resource and
CMDB-host-not-found among them, the returned error carries the server's result code and
the server's info message. -/
theorem Heartbeat_nil_iff_and_server_info (g : Connector) (env : Env)
    (req : InstanceHeartbeatRequest)
    (gate : GateResult) (conn : Connection) (timeout : Duration)
    (hgate : waitDiscoverReady g.hasPrintedReady env.polls = some gate)
    (hpass : gate.err = none)
    (hconn : env.GetConnection = GetConnectionResult.ok conn)
    (htimeout : req.Timeout = some timeout)
    (hrpc : env.rpc.err = none) :
    ∃ r err, Heartbeat g env req = some r ∧ r.out = Outcome.returned err ∧
      (err = none ↔ GetCode env.rpc.pbResp = Code_ExecuteSuccess) ∧
      (GetCode env.rpc.pbResp ≠ Code_ExecuteSuccess →
        ∃ e, err = some e ∧
          e.serverInfo = some (GetCode env.rpc.pbResp, GetInfo env.rpc.pbResp)) ∧
      (GetCode env.rpc.pbResp = Code_ExistedResource ∨
        GetCode env.rpc.pbResp = Code_NotFoundResource ∨
        GetCode env.rpc.pbResp = Code_CMDBNotFindHost → err ≠ none) := by
  refine ⟨_, _, afterGate_pass g env _ _ gate hgate hpass,
    Heartbeat_call_out env req conn timeout hconn htimeout hrpc, ?_, ?_, ?_⟩
  · by_cases h1 : GetCode env.rpc.pbResp = Code_ExecuteSuccess
    · simp [h1]
    · simp [h1, Ne.symm h1]
  · intro h1
    rw [if_pos (Ne.symm h1)]
    exact ⟨_, rfl, rfl⟩
  · rintro (h | h | h) <;>
      simp [h, Code_ExecuteSuccess, Code_NotFoundResource, Code_ExistedResource,
        Code_CMDBNotFindHost]

/-- Code not-found-resource on a heartbeat: an error carrying 400202 and "info". -/
theorem Heartbeat_nil_iff_and_server_info_witness :
    ∃ r e, Heartbeat { hasPrintedReady := 0 } (sampleEnv (sampleResponse 400202))
          sampleHeartbeatRequest = some r ∧
      r.out = Outcome.returned (some e) ∧ e.serverInfo = some (400202, "info") := by
  obtain ⟨r, err, hr, ho, _, hinfo, _⟩ := Heartbeat_nil_iff_and_server_info
    { hasPrintedReady := 0 } (sampleEnv (sampleResponse 400202)) sampleHeartbeatRequest
    sampleGate sampleConn 1000 rfl rfl rfl rfl rfl
  obtain ⟨e, he, hs⟩ := hinfo (by decide)
  subst he
  exact ⟨r, e, hr, ho, hs⟩

/-- C4. ReportClient, when the readiness gate passes, GetConnection succeeds and the
transport call returns a response: it returns a nil error and a non-nil response exactly
when the response code is execute-success or CMDB-host-not-found, and then Mode, Version,
Region, Zone and Campus are those of the client record of the server response; for every
other code it returns a nil response and a non-nil error. -/
theorem ReportClient_result_by_code (g : Connector) (env : Env) (req : ReportClientRequest)
    (gate : GateResult) (conn : Connection)
    (hgate : waitDiscoverReady g.hasPrintedReady env.polls = some gate)
    (hpass : gate.err = none)
    (hconn : env.GetConnection = GetConnectionResult.ok conn)
    (hrpc : env.rpc.err = none) :
    ∃ r res, ReportClient g env req = some r ∧ r.out = Outcome.returned res ∧
      ((res.err = none ∧ res.resp ≠ none) ↔
        (GetCode env.rpc.pbResp = Code_ExecuteSuccess ∨
         GetCode env.rpc.pbResp = Code_CMDBNotFindHost)) ∧
      ((GetCode env.rpc.pbResp = Code_ExecuteSuccess ∨
         GetCode env.rpc.pbResp = Code_CMDBNotFindHost) →
        res.err = none ∧
        res.resp = some
          { Mode := GetType (GetClient env.rpc.pbResp),
            Version := GetVersion (GetClient env.rpc.pbResp),
            Region := GetRegion (GetLocation (GetClient env.rpc.pbResp)),
            Zone := GetZone (GetLocation (GetClient env.rpc.pbResp)),
            Campus := GetCampus (GetLocation (GetClient env.rpc.pbResp)) }) ∧
      (¬ (GetCode env.rpc.pbResp = Code_ExecuteSuccess ∨
           GetCode env.rpc.pbResp = Code_CMDBNotFindHost) →
        res.resp = none ∧ res.err ≠ none) := by
  refine ⟨_, _, afterGate_pass g env _ _ gate hgate hpass,
    ReportClient_call_out env req conn hconn hrpc, ?_, ?_, ?_⟩
  · by_cases h1 : GetCode env.rpc.pbResp = Code_ExecuteSuccess
    · simp [h1]
    · by_cases h2 : GetCode env.rpc.pbResp = Code_CMDBNotFindHost
      · simp [h2]
      · simp [h1, h2, Ne.symm h1, Ne.symm h2, eq_comm]
  · intro h
    have hn : ¬ (Code_ExecuteSuccess ≠ GetCode env.rpc.pbResp ∧
        Code_CMDBNotFindHost ≠ GetCode env.rpc.pbResp) := by
      rintro ⟨h1, h2⟩
      rcases h with h | h
      · exact h1 h.symm
      · exact h2 h.symm
    rw [if_neg hn]
    exact ⟨rfl, rfl⟩
  · intro h
    have hp : Code_ExecuteSuccess ≠ GetCode env.rpc.pbResp ∧
        Code_CMDBNotFindHost ≠ GetCode env.rpc.pbResp :=
      ⟨fun e => h (Or.inl e.symm), fun e => h (Or.inr e.symm)⟩
    rw [if_pos hp]
    exact ⟨rfl, by simp⟩

/-- Code CMDB-host-not-found on a client report: the client record of the response. -/
theorem ReportClient_result_by_code_witness :
    ∃ r res, ReportClient { hasPrintedReady := 0 } (sampleEnv (sampleResponse 404001))
          sampleReportClientRequest = some r ∧
      r.out = Outcome.returned res ∧ res.err = none ∧
      res.resp = some { Mode := 1, Version := "v1", Region := "r", Zone := "z", Campus := "c" } := by
  obtain ⟨r, res, hr, ho, _, hok, _⟩ := ReportClient_result_by_code { hasPrintedReady := 0 }
    (sampleEnv (sampleResponse 404001)) sampleReportClientRequest sampleGate sampleConn
    rfl rfl rfl rfl
  exact ⟨r, res, hr, ho, (hok (Or.inr rfl)).1, (hok (Or.inr rfl)).2⟩

/-- C5. ReportClient with a non-nil PersistHandler: the handler is invoked exactly once,
with the raw server response, when the call succeeds (the gate passes, a connection is
leased, the transport answers and the code is execute-success or CMDB-host-not-found), and
is never invoked when the call fails; whatever the handler returns, the response and the
error returned are those returned with a handler that returns nil. -/
theorem ReportClient_persist_handler (g : Connector) (env : Env) (req : ReportClientRequest)
    (gate : GateResult) (handler : Option Response → Option Error)
    (hgate : waitDiscoverReady g.hasPrintedReady env.polls = some gate)
    (hhandler : req.PersistHandler = some handler) :
    ∃ r res, ReportClient g env req = some r ∧ r.out = Outcome.returned res ∧
      ((gate.err = none ∧ (∃ conn, env.GetConnection = GetConnectionResult.ok conn) ∧
          env.rpc.err = none ∧
          (GetCode env.rpc.pbResp = Code_ExecuteSuccess ∨
           GetCode env.rpc.pbResp = Code_CMDBNotFindHost)) →
        persistCalls r.trace = [Event.PersistHandler env.rpc.pbResp] ∧ res.err = none) ∧
      (¬ (gate.err = none ∧ (∃ conn, env.GetConnection = GetConnectionResult.ok conn) ∧
          env.rpc.err = none ∧
          (GetCode env.rpc.pbResp = Code_ExecuteSuccess ∨
           GetCode env.rpc.pbResp = Code_CMDBNotFindHost)) →
        persistCalls r.trace = [] ∧ res.err ≠ none) ∧
      (∃ r0 res0,
        ReportClient g env { req with PersistHandler := some (fun _ => none) } = some r0 ∧
        r0.out = Outcome.returned res0 ∧ res.resp = res0.resp ∧ res.err = res0.err) := by
  have hg := gate_persistCalls _ _ _ hgate
  unfold persistCalls at hg
  rcases hge : gate.err with _ | e
  · have hr1 := afterGate_pass g env
      (fun err => ({ resp := none, err := some err, req := req } : ReportClientResult))
      (ReportClient.call env req) gate hgate hge
    have hr0 := afterGate_pass g env
      (fun err => ({ resp := none, err := some err,
                     req := { req with PersistHandler := some (fun _ => none) } } :
                    ReportClientResult))
      (ReportClient.call env { req with PersistHandler := some (fun _ => none) }) gate hgate hge
    rcases hc : env.GetConnection with conn | ⟨c, cerr⟩
    · rcases hr : env.rpc.err with _ | rerr
      · by_cases hcode : Code_ExecuteSuccess ≠ GetCode env.rpc.pbResp ∧
            Code_CMDBNotFindHost ≠ GetCode env.rpc.pbResp
        · refine ⟨_, _, hr1, ReportClient_call_out env req conn hc hr, ?_, ?_,
            ⟨_, _, hr0, ReportClient_call_out env _ conn hc hr, ?_, ?_⟩⟩
          · rintro ⟨-, -, -, h | h⟩
            · exact absurd h.symm hcode.1
            · exact absurd h.symm hcode.2
          · intro _
            rw [if_pos hcode]
            refine ⟨?_, by simp⟩
            simp only [ReportClient.call, hc, hr, if_pos hcode]
            cases env.cancelNonNil <;> split_ifs <;>
              simp [persistCalls, hg, deferred]
          · simp only [if_pos hcode]
          · simp only [if_pos hcode]
        · refine ⟨_, _, hr1, ReportClient_call_out env req conn hc hr, ?_, ?_,
            ⟨_, _, hr0, ReportClient_call_out env _ conn hc hr, ?_, ?_⟩⟩
          · intro _
            rw [if_neg hcode]
            refine ⟨?_, rfl⟩
            simp only [ReportClient.call, hc, hr, if_neg hcode]
            have hh : (if decide (req.Host.length = 0) = true
                then { req with Host := env.clientIP } else req).PersistHandler
                  = some handler := by
              split_ifs <;> simp [hhandler]
            simp only [hh]
            cases handler env.rpc.pbResp <;> cases env.cancelNonNil <;> split_ifs <;>
              simp [persistCalls, hg, deferred]
          · intro hn
            exfalso
            apply hn
            refine ⟨rfl, ⟨conn, rfl⟩, rfl, ?_⟩
            by_contra hx
            exact hcode ⟨fun h => hx (Or.inl h.symm), fun h => hx (Or.inr h.symm)⟩
          · simp only [if_neg hcode]
          · simp only [if_neg hcode]
      · have ho1 : (ReportClient.call env req).1 = Outcome.returned
            { resp := none,
              err := some (NewSDKError ErrCode.ErrCodeNetworkError (some rerr)
                { format := "fail to send request, opKey %s, reqID %s, connID %s",
                  args := [FmtArg.opKey OpKey.OpKeyReportClient, FmtArg.str env.reqID,
                           FmtArg.connID conn.ConnID] }),
              req := hostDefaulted env req } := by
          simp [ReportClient.call, hc, hr, NetworkError, Outcome.map, hostDefaulted]
        have ho0 : (ReportClient.call env
              { req with PersistHandler := some (fun _ => none) }).1 = Outcome.returned
            { resp := none,
              err := some (NewSDKError ErrCode.ErrCodeNetworkError (some rerr)
                { format := "fail to send request, opKey %s, reqID %s, connID %s",
                  args := [FmtArg.opKey OpKey.OpKeyReportClient, FmtArg.str env.reqID,
                           FmtArg.connID conn.ConnID] }),
              req := hostDefaulted env { req with PersistHandler := some (fun _ => none) } } := by
          simp [ReportClient.call, hc, hr, NetworkError, Outcome.map, hostDefaulted]
        refine ⟨_, _, hr1, ho1, ?_, ?_, ⟨_, _, hr0, ho0, rfl, rfl⟩⟩
        · rintro ⟨-, -, h, -⟩
          cases h
        · intro _
          refine ⟨?_, by simp⟩
          simp only [ReportClient.call, hc, hr, NetworkError]
          cases env.cancelNonNil <;> split_ifs <;> simp [persistCalls, hg, deferred]
    · have ho1 : (ReportClient.call env req).1 = Outcome.returned
          { resp := none,
            err := some (NewSDKError ErrCode.ErrCodeNetworkError (some cerr)
              { format := "fail to get connection, opKey %s",
                args := [FmtArg.opKey OpKey.OpKeyReportClient] }),
            req := req } := by
        simp [ReportClient.call, hc]
      have ho0 : (ReportClient.call env
            { req with PersistHandler := some (fun _ => none) }).1 = Outcome.returned
          { resp := none,
            err := some (NewSDKError ErrCode.ErrCodeNetworkError (some cerr)
              { format := "fail to get connection, opKey %s",
                args := [FmtArg.opKey OpKey.OpKeyReportClient] }),
            req := { req with PersistHandler := some (fun _ => none) } } := by
        simp [ReportClient.call, hc]
      refine ⟨_, _, hr1, ho1, ?_, ?_, ⟨_, _, hr0, ho0, rfl, rfl⟩⟩
      · rintro ⟨-, ⟨conn, h⟩, -, -⟩
        cases h
      · intro _
        refine ⟨?_, by simp⟩
        simp [ReportClient.call, hc, persistCalls, hg]
  · refine ⟨_, _, afterGate_fail g env _ _ gate e hgate hge, rfl, ?_, ?_,
      ⟨_, _, afterGate_fail g env _ _ gate e hgate hge, rfl, rfl, rfl⟩⟩
    · rintro ⟨h, -⟩
      cases h
    · intro _
      refine ⟨?_, by simp⟩
      simp [persistCalls, hg]

/-- A successful client report whose handler fails: one invocation, nil error. -/
theorem ReportClient_persist_handler_witness :
    ∃ r res, ReportClient { hasPrintedReady := 0 } (sampleEnv (sampleResponse 200000))
          sampleReportClientRequest = some r ∧
      r.out = Outcome.returned res ∧
      persistCalls r.trace = [Event.PersistHandler (sampleResponse 200000)] ∧
      res.err = none := by
  obtain ⟨r, res, hr, ho, hok, _, _⟩ := ReportClient_persist_handler { hasPrintedReady := 0 }
    (sampleEnv (sampleResponse 200000)) sampleReportClientRequest sampleGate
    (fun _ => some "disk full") rfl rfl
  have h := hok ⟨rfl, ⟨sampleConn, rfl⟩, rfl, Or.inl rfl⟩
  exact ⟨r, res, hr, ho, h.1, h.2⟩

/-- C6. Health signal after classification, for each of RegisterInstance,
DeregisterInstance, Heartbeat and ReportClient and every server response received on a
leased connection: the health signals of the execution are exactly one call, made with the
leased connection's ConnID and the elapsed duration (end time minus start time); it is
ReportFail, with the server-error kind, exactly when the code is neither execute-success
nor the operation's idempotent code and its mapped kind is server-internal, and otherwise
ReportSuccess with the code's mapped kind. -/
theorem health_signal_after_classification (g : Connector) (env : Env)
    (registerReq : InstanceRegisterRequest) (header : List (String × String))
    (deregisterReq : InstanceDeRegisterRequest) (heartbeatReq : InstanceHeartbeatRequest)
    (reportReq : ReportClientRequest)
    (gate : GateResult) (conn : Connection) (t1 t2 t3 : Duration)
    (hgate : waitDiscoverReady g.hasPrintedReady env.polls = some gate)
    (hpass : gate.err = none)
    (hconn : env.GetConnection = GetConnectionResult.ok conn)
    (hrpc : env.rpc.err = none)
    (ht1 : registerReq.Timeout = some t1)
    (ht2 : deregisterReq.Timeout = some t2)
    (ht3 : heartbeatReq.Timeout = some t3) :
    (∃ r, RegisterInstance g env registerReq header = some r ∧
      healthSignals r.trace =
        [if GetCode env.rpc.pbResp ≠ Code_ExecuteSuccess ∧
            GetCode env.rpc.pbResp ≠ Code_ExistedResource ∧
            env.ConvertServerErrorToRpcError (GetCode env.rpc.pbResp)
              = ErrCode.ErrCodeServerError
          then Event.ReportFail conn.ConnID ErrCode.ErrCodeServerError
                 (Sub (env.clock 1) (env.clock 0))
          else Event.ReportSuccess conn.ConnID
                 (env.ConvertServerErrorToRpcError (GetCode env.rpc.pbResp))
                 (Sub (env.clock 1) (env.clock 0))]) ∧
    (∃ r, DeregisterInstance g env deregisterReq = some r ∧
      healthSignals r.trace =
        [if GetCode env.rpc.pbResp ≠ Code_ExecuteSuccess ∧
            GetCode env.rpc.pbResp ≠ Code_NotFoundResource ∧
            env.ConvertServerErrorToRpcError (GetCode env.rpc.pbResp)
              = ErrCode.ErrCodeServerError
          then Event.ReportFail conn.ConnID ErrCode.ErrCodeServerError
                 (Sub (env.clock 1) (env.clock 0))
          else Event.ReportSuccess conn.ConnID
                 (env.ConvertServerErrorToRpcError (GetCode env.rpc.pbResp))
                 (Sub (env.clock 1) (env.clock 0))]) ∧
    (∃ r, Heartbeat g env heartbeatReq = some r ∧
      healthSignals r.trace =
        [if GetCode env.rpc.pbResp ≠ Code_ExecuteSuccess ∧
            env.ConvertServerErrorToRpcError (GetCode env.rpc.pbResp)
              = ErrCode.ErrCodeServerError
          then Event.ReportFail conn.ConnID ErrCode.ErrCodeServerError
                 (Sub (env.clock 1) (env.clock 0))
          else Event.ReportSuccess conn.ConnID
                 (env.ConvertServerErrorToRpcError (GetCode env.rpc.pbResp))
                 (Sub (env.clock 1) (env.clock 0))]) ∧
    (∃ r, ReportClient g env reportReq = some r ∧
      healthSignals r.trace =
        [if GetCode env.rpc.pbResp ≠ Code_ExecuteSuccess ∧
            GetCode env.rpc.pbResp ≠ Code_CMDBNotFindHost ∧
            env.ConvertServerErrorToRpcError (GetCode env.rpc.pbResp)
              = ErrCode.ErrCodeServerError
          then Event.ReportFail conn.ConnID ErrCode.ErrCodeServerError
                 (Sub env.valueCtxNow (env.clock 0))
          else Event.ReportSuccess conn.ConnID
                 (env.ConvertServerErrorToRpcError (GetCode env.rpc.pbResp))
                 (Sub env.valueCtxNow (env.clock 0))]) :=
  ⟨RegisterInstance_healthSignals g env registerReq header gate conn t1 hgate hpass hconn ht1 hrpc,
   DeregisterInstance_healthSignals g env deregisterReq gate conn t2 hgate hpass hconn ht2 hrpc,
   Heartbeat_healthSignals g env heartbeatReq gate conn t3 hgate hpass hconn ht3 hrpc,
   ReportClient_healthSignals g env reportReq gate conn hgate hpass hconn hrpc⟩

/-- Code 500000 on a registration: one ReportFail on connection 7 after 10 ns; code
400000 would be a ReportSuccess. -/
theorem health_signal_after_classification_witness :
    ∃ r, RegisterInstance { hasPrintedReady := 0 } (sampleEnv (sampleResponse 500000))
          sampleRegisterRequest [] = some r ∧
      healthSignals r.trace =
        [Event.ReportFail { ID := 7, Address := "127.0.0.1:8091" }
           ErrCode.ErrCodeServerError 10] := by
  obtain ⟨r, hr, hs⟩ := (health_signal_after_classification { hasPrintedReady := 0 }
    (sampleEnv (sampleResponse 500000)) sampleRegisterRequest [] sampleDeRegisterRequest
    sampleHeartbeatRequest sampleReportClientRequest sampleGate sampleConn 1000 1000 1000
    rfl rfl rfl rfl rfl rfl rfl).1
  exact ⟨r, hr, hs.trans (by decide)⟩

/-- C7. Error kind of a server-rejected call, for each of the four operations and every
response code that is neither execute-success nor the operation's idempotent code
(existed-resource for Register, not-found-resource for Deregister, none for Heartbeat,
CMDB-host-not-found for ReportClient): the returned error has kind server-exception if
the code's mapped kind is server-internal, and kind server-user-error otherwise. -/
theorem rejected_error_kind (g : Connector) (env : Env)
    (registerReq : InstanceRegisterRequest) (header : List (String × String))
    (deregisterReq : InstanceDeRegisterRequest) (heartbeatReq : InstanceHeartbeatRequest)
    (reportReq : ReportClientRequest)
    (gate : GateResult) (conn : Connection) (t1 t2 t3 : Duration)
    (hgate : waitDiscoverReady g.hasPrintedReady env.polls = some gate)
    (hpass : gate.err = none)
    (hconn : env.GetConnection = GetConnectionResult.ok conn)
    (hrpc : env.rpc.err = none)
    (ht1 : registerReq.Timeout = some t1)
    (ht2 : deregisterReq.Timeout = some t2)
    (ht3 : heartbeatReq.Timeout = some t3)
    (hcode : GetCode env.rpc.pbResp ≠ Code_ExecuteSuccess) :
    (GetCode env.rpc.pbResp ≠ Code_ExistedResource →
      ∃ r e, RegisterInstance g env registerReq header = some r ∧
        r.out = Outcome.returned (none, some e) ∧
        e.errCode = if env.ConvertServerErrorToRpcError (GetCode env.rpc.pbResp)
                        = ErrCode.ErrCodeServerError
                    then ErrCode.ErrCodeServerException
                    else ErrCode.ErrCodeServerUserError) ∧
    (GetCode env.rpc.pbResp ≠ Code_NotFoundResource →
      ∃ r e, DeregisterInstance g env deregisterReq = some r ∧
        r.out = Outcome.returned (some e) ∧
        e.errCode = if env.ConvertServerErrorToRpcError (GetCode env.rpc.pbResp)
                        = ErrCode.ErrCodeServerError
                    then ErrCode.ErrCodeServerException
                    else ErrCode.ErrCodeServerUserError) ∧
    (∃ r e, Heartbeat g env heartbeatReq = some r ∧
        r.out = Outcome.returned (some e) ∧
        e.errCode = if env.ConvertServerErrorToRpcError (GetCode env.rpc.pbResp)
                        = ErrCode.ErrCodeServerError
                    then ErrCode.ErrCodeServerException
                    else ErrCode.ErrCodeServerUserError) ∧
    (GetCode env.rpc.pbResp ≠ Code_CMDBNotFindHost →
      ∃ r res e, ReportClient g env reportReq = some r ∧
        r.out = Outcome.returned res ∧ res.resp = none ∧ res.err = some e ∧
        e.errCode = if env.ConvertServerErrorToRpcError (GetCode env.rpc.pbResp)
                        = ErrCode.ErrCodeServerError
                    then ErrCode.ErrCodeServerException
                    else ErrCode.ErrCodeServerUserError) := by
  refine ⟨?_, ?_, ?_, ?_⟩
  · intro h2
    have ho := RegisterInstance_call_out env registerReq header conn t1 hconn ht1 hrpc
    rw [if_pos ⟨Ne.symm hcode, Ne.symm h2⟩] at ho
    exact ⟨_, _, afterGate_pass g env _ _ gate hgate hpass, ho, rfl⟩
  · intro h2
    have ho := DeregisterInstance_call_out env deregisterReq conn t2 hconn ht2 hrpc
    rw [if_pos ⟨Ne.symm hcode, Ne.symm h2⟩] at ho
    exact ⟨_, _, afterGate_pass g env _ _ gate hgate hpass, ho, rfl⟩
  · have ho := Heartbeat_call_out env heartbeatReq conn t3 hconn ht3 hrpc
    rw [if_pos (Ne.symm hcode)] at ho
    exact ⟨_, _, afterGate_pass g env _ _ gate hgate hpass, ho, rfl⟩
  · intro h2
    have ho := ReportClient_call_out env reportReq conn hconn hrpc
    rw [if_pos ⟨Ne.symm hcode, Ne.symm h2⟩] at ho
    exact ⟨_, _, _, afterGate_pass g env _ _ gate hgate hpass, ho, rfl, rfl, rfl⟩

/-- Code 500000 (mapped to server-internal by the sample mapping) on a heartbeat. -/
theorem rejected_error_kind_witness :
    ∃ r e, Heartbeat { hasPrintedReady := 0 } (sampleEnv (sampleResponse 500000))
          sampleHeartbeatRequest = some r ∧
      r.out = Outcome.returned (some e) ∧ e.errCode = ErrCode.ErrCodeServerException := by
  obtain ⟨r, e, hr, ho, he⟩ := (rejected_error_kind { hasPrintedReady := 0 }
    (sampleEnv (sampleResponse 500000)) sampleRegisterRequest [] sampleDeRegisterRequest
    sampleHeartbeatRequest sampleReportClientRequest sampleGate sampleConn 1000 1000 1000
    rfl rfl rfl rfl rfl rfl rfl (by decide)).2.2.1
  exact ⟨r, e, hr, ho, he⟩

/-- C8. For each of the four operations: if the readiness gate returns its error, that
error is the invalid-state error, the operation returns it (with a nil response where it
has one), and the execution makes no call to GetConnection, Release, ReportSuccess or
ReportFail and no transport call. -/
theorem gate_error_stops_operation (g : Connector) (env : Env)
    (registerReq : InstanceRegisterRequest) (header : List (String × String))
    (deregisterReq : InstanceDeRegisterRequest) (heartbeatReq : InstanceHeartbeatRequest)
    (reportReq : ReportClientRequest)
    (gate : GateResult) (e : SDKError)
    (hgate : waitDiscoverReady g.hasPrintedReady env.polls = some gate)
    (hfail : gate.err = some e) :
    e.errCode = ErrCode.ErrCodeInvalidStateError ∧
    (∃ r, RegisterInstance g env registerReq header = some r ∧
      r.out = Outcome.returned (none, some e) ∧
      acquisitions r.trace = [] ∧ releases r.trace = [] ∧ healthSignals r.trace = [] ∧
      transportCalls r.trace = []) ∧
    (∃ r, DeregisterInstance g env deregisterReq = some r ∧
      r.out = Outcome.returned (some e) ∧
      acquisitions r.trace = [] ∧ releases r.trace = [] ∧ healthSignals r.trace = [] ∧
      transportCalls r.trace = []) ∧
    (∃ r, Heartbeat g env heartbeatReq = some r ∧
      r.out = Outcome.returned (some e) ∧
      acquisitions r.trace = [] ∧ releases r.trace = [] ∧ healthSignals r.trace = [] ∧
      transportCalls r.trace = []) ∧
    (∃ r res, ReportClient g env reportReq = some r ∧
      r.out = Outcome.returned res ∧ res.resp = none ∧ res.err = some e ∧
      acquisitions r.trace = [] ∧ releases r.trace = [] ∧ healthSignals r.trace = [] ∧
      transportCalls r.trace = []) := by
  have h1 := gate_acquisitions _ _ _ hgate
  have h2 := gate_releases _ _ _ hgate
  have h3 := gate_healthSignals _ _ _ hgate
  have h4 := gate_transportCalls _ _ _ hgate
  refine ⟨?_, ?_, ?_, ?_, ?_⟩
  · rw [waitDiscoverReady_err _ _ gate e hgate hfail]
    rfl
  · exact ⟨_, afterGate_fail g env _ _ gate e hgate hfail, rfl, h1, h2, h3, h4⟩
  · exact ⟨_, afterGate_fail g env _ _ gate e hgate hfail, rfl, h1, h2, h3, h4⟩
  · exact ⟨_, afterGate_fail g env _ _ gate e hgate hfail, rfl, h1, h2, h3, h4⟩
  · exact ⟨_, _, afterGate_fail g env _ _ gate e hgate hfail, rfl, rfl, rfl, h1, h2, h3, h4⟩

/-- The run-context is cancelled at the second poll: the registration returns the
invalid-state error after one `IsReady` and one sleep. -/
theorem gate_error_stops_operation_witness :
    ∃ r e, RegisterInstance { hasPrintedReady := 0 } cancelledEnv sampleRegisterRequest []
          = some r ∧
      r.out = Outcome.returned (none, some e) ∧
      e.errCode = ErrCode.ErrCodeInvalidStateError ∧
      r.trace = [Event.IsReady, Event.Sleep] := by
  obtain ⟨he, ⟨r, hr, ho, _⟩, _⟩ := gate_error_stops_operation { hasPrintedReady := 0 }
    cancelledEnv sampleRegisterRequest [] sampleDeRegisterRequest sampleHeartbeatRequest
    sampleReportClientRequest cancelledGate
    (NewSDKError ErrCode.ErrCodeInvalidStateError none
      { format := "SDK context has destroyed", args := [] })
    rfl rfl
  refine ⟨r, _, hr, ho, he, ?_⟩
  have hr2 : RegisterInstance { hasPrintedReady := 0 } cancelledEnv sampleRegisterRequest []
      = some { out := Outcome.returned (none, cancelledGate.err),
               trace := [Event.IsReady, Event.Sleep], hasPrintedReady := 0 } := rfl
  rw [hr2] at hr
  cases hr
  rfl

/-- C9. Lease balance, for each of the four operations and every execution: if
GetConnection succeeds, GetConnection was called once and Release is called exactly once,
on the returned handle and with the operation key passed to GetConnection, and it is the
last call of the execution, whatever the transport call and the classification give; if
GetConnection is not reached (the gate fails) or fails, Release is never called. -/
theorem lease_balance (g : Connector) (env : Env)
    (registerReq : InstanceRegisterRequest) (header : List (String × String))
    (deregisterReq : InstanceDeRegisterRequest) (heartbeatReq : InstanceHeartbeatRequest)
    (reportReq : ReportClientRequest) (gate : GateResult)
    (hgate : waitDiscoverReady g.hasPrintedReady env.polls = some gate) :
    (∃ r, RegisterInstance g env registerReq header = some r ∧
      (∀ conn, gate.err = none → env.GetConnection = GetConnectionResult.ok conn →
        acquisitions r.trace
          = [Event.GetConnection OpKey.OpKeyRegisterInstance ClusterType.DiscoverCluster] ∧
        releases r.trace = [Event.Release conn.ConnID OpKey.OpKeyRegisterInstance] ∧
        r.trace.getLast? = some (Event.Release conn.ConnID OpKey.OpKeyRegisterInstance)) ∧
      (gate.err ≠ none → acquisitions r.trace = [] ∧ releases r.trace = []) ∧
      (∀ c err, gate.err = none → env.GetConnection = GetConnectionResult.fail c err →
        releases r.trace = [])) ∧
    (∃ r, DeregisterInstance g env deregisterReq = some r ∧
      (∀ conn, gate.err = none → env.GetConnection = GetConnectionResult.ok conn →
        acquisitions r.trace
          = [Event.GetConnection OpKey.OpKeyDeregisterInstance ClusterType.DiscoverCluster] ∧
        releases r.trace = [Event.Release conn.ConnID OpKey.OpKeyDeregisterInstance] ∧
        r.trace.getLast? = some (Event.Release conn.ConnID OpKey.OpKeyDeregisterInstance)) ∧
      (gate.err ≠ none → acquisitions r.trace = [] ∧ releases r.trace = []) ∧
      (∀ c err, gate.err = none → env.GetConnection = GetConnectionResult.fail c err →
        releases r.trace = [])) ∧
    (∃ r, Heartbeat g env heartbeatReq = some r ∧
      (∀ conn, gate.err = none → env.GetConnection = GetConnectionResult.ok conn →
        acquisitions r.trace
          = [Event.GetConnection OpKey.OpKeyInstanceHeartbeat ClusterType.HealthCheckCluster] ∧
        releases r.trace = [Event.Release conn.ConnID OpKey.OpKeyInstanceHeartbeat] ∧
        r.trace.getLast? = some (Event.Release conn.ConnID OpKey.OpKeyInstanceHeartbeat)) ∧
      (gate.err ≠ none → acquisitions r.trace = [] ∧ releases r.trace = []) ∧
      (∀ c err, gate.err = none → env.GetConnection = GetConnectionResult.fail c err →
        releases r.trace = [])) ∧
    (∃ r, ReportClient g env reportReq = some r ∧
      (∀ conn, gate.err = none → env.GetConnection = GetConnectionResult.ok conn →
        acquisitions r.trace
          = [Event.GetConnection OpKey.OpKeyReportClient ClusterType.DiscoverCluster] ∧
        releases r.trace = [Event.Release conn.ConnID OpKey.OpKeyReportClient] ∧
        r.trace.getLast? = some (Event.Release conn.ConnID OpKey.OpKeyReportClient)) ∧
      (gate.err ≠ none → acquisitions r.trace = [] ∧ releases r.trace = []) ∧
      (∀ c err, gate.err = none → env.GetConnection = GetConnectionResult.fail c err →
        releases r.trace = [])) :=
  ⟨RegisterInstance_lease g env registerReq header gate hgate,
   DeregisterInstance_lease g env deregisterReq gate hgate,
   Heartbeat_lease g env heartbeatReq gate hgate,
   ReportClient_lease g env reportReq gate hgate⟩

/-- A transport failure on a heartbeat: the lease on connection 7 is released once, last. -/
theorem lease_balance_witness :
    ∃ r, Heartbeat { hasPrintedReady := 0 } timeoutEnv sampleHeartbeatRequest = some r ∧
      releases r.trace = [Event.Release sampleConn.ConnID OpKey.OpKeyInstanceHeartbeat] ∧
      r.trace.getLast? = some (Event.Release sampleConn.ConnID OpKey.OpKeyInstanceHeartbeat) := by
  obtain ⟨r, hr, h, _, _⟩ := (lease_balance { hasPrintedReady := 0 } timeoutEnv
    sampleRegisterRequest [] sampleDeRegisterRequest sampleHeartbeatRequest
    sampleReportClientRequest sampleGate rfl).2.2.1
  exact ⟨r, hr, (h sampleConn rfl rfl).2⟩

/-- C10. Acquisition failure, for each of the four operations (RegisterInstance
included): if GetConnection returns an error and no connection, the operation returns an
error of kind network-error wrapping that cause (with a nil response where it has one),
makes no transport call, and emits no health signal: neither ReportSuccess nor ReportFail
is called during the execution. -/
theorem acquisition_failure_is_network_error (g : Connector) (env : Env)
    (registerReq : InstanceRegisterRequest) (header : List (String × String))
    (deregisterReq : InstanceDeRegisterRequest) (heartbeatReq : InstanceHeartbeatRequest)
    (reportReq : ReportClientRequest)
    (gate : GateResult) (cerr : Error)
    (hgate : waitDiscoverReady g.hasPrintedReady env.polls = some gate)
    (hpass : gate.err = none)
    (hconn : env.GetConnection = GetConnectionResult.fail none cerr) :
    (∃ r e, RegisterInstance g env registerReq header = some r ∧
      r.out = Outcome.returned (none, some e) ∧
      e.errCode = ErrCode.ErrCodeNetworkError ∧ e.cause = some cerr ∧
      transportCalls r.trace = [] ∧ healthSignals r.trace = []) ∧
    (∃ r e, DeregisterInstance g env deregisterReq = some r ∧
      r.out = Outcome.returned (some e) ∧
      e.errCode = ErrCode.ErrCodeNetworkError ∧ e.cause = some cerr ∧
      transportCalls r.trace = [] ∧ healthSignals r.trace = []) ∧
    (∃ r e, Heartbeat g env heartbeatReq = some r ∧
      r.out = Outcome.returned (some e) ∧
      e.errCode = ErrCode.ErrCodeNetworkError ∧ e.cause = some cerr ∧
      transportCalls r.trace = [] ∧ healthSignals r.trace = []) ∧
    (∃ r res e, ReportClient g env reportReq = some r ∧
      r.out = Outcome.returned res ∧ res.resp = none ∧ res.err = some e ∧
      e.errCode = ErrCode.ErrCodeNetworkError ∧ e.cause = some cerr ∧
      transportCalls r.trace = [] ∧ healthSignals r.trace = []) := by
  have hg1 := gate_transportCalls _ _ _ hgate
  have hg2 := gate_healthSignals _ _ _ hgate
  unfold transportCalls at hg1
  unfold healthSignals at hg2
  have ho1 : (RegisterInstance.call env registerReq header).1 = Outcome.returned
      (none, some (NewSDKError ErrCode.ErrCodeNetworkError (some cerr)
        { format := "fail to get connection, opKey %s",
          args := [FmtArg.opKey OpKey.OpKeyRegisterInstance] })) := by
    simp only [RegisterInstance.call, hconn, NetworkError, Outcome.map]
  have ho2 : (DeregisterInstance.call env deregisterReq).1 = Outcome.returned
      (some (NewSDKError ErrCode.ErrCodeNetworkError (some cerr)
        { format := "fail to get connection, opKey %s",
          args := [FmtArg.opKey OpKey.OpKeyDeregisterInstance] })) := by
    simp only [DeregisterInstance.call, hconn]
  have ho3 : (Heartbeat.call env heartbeatReq).1 = Outcome.returned
      (some (NewSDKError ErrCode.ErrCodeNetworkError (some cerr)
        { format := "fail to get connection, opKey %s",
          args := [FmtArg.opKey OpKey.OpKeyInstanceHeartbeat] })) := by
    simp only [Heartbeat.call, hconn]
  have ho4 : (ReportClient.call env reportReq).1 = Outcome.returned
      { resp := none,
        err := some (NewSDKError ErrCode.ErrCodeNetworkError (some cerr)
          { format := "fail to get connection, opKey %s",
            args := [FmtArg.opKey OpKey.OpKeyReportClient] }),
        req := reportReq } := by
    simp only [ReportClient.call, hconn]
  refine ⟨?_, ?_, ?_, ?_⟩
  · refine ⟨_, _, afterGate_pass g env _ _ gate hgate hpass, ho1, rfl, rfl, ?_, ?_⟩
    · simp [RegisterInstance.call, hconn, NetworkError, transportCalls, hg1]
    · simp [RegisterInstance.call, hconn, NetworkError, healthSignals, hg2]
  · refine ⟨_, _, afterGate_pass g env _ _ gate hgate hpass, ho2, rfl, rfl, ?_, ?_⟩
    · simp [DeregisterInstance.call, hconn, transportCalls, hg1]
    · simp [DeregisterInstance.call, hconn, healthSignals, hg2]
  · refine ⟨_, _, afterGate_pass g env _ _ gate hgate hpass, ho3, rfl, rfl, ?_, ?_⟩
    · simp [Heartbeat.call, hconn, transportCalls, hg1]
    · simp [Heartbeat.call, hconn, healthSignals, hg2]
  · refine ⟨_, _, _, afterGate_pass g env _ _ gate hgate hpass, ho4, rfl, rfl, rfl, rfl,
      ?_, ?_⟩
    · simp [ReportClient.call, hconn, transportCalls, hg1]
    · simp [ReportClient.call, hconn, healthSignals, hg2]

/-- The pool refuses a connection to a registration: a network error wrapping
"connection refused", and a trace that holds only the gate's calls and GetConnection. -/
theorem acquisition_failure_is_network_error_witness :
    ∃ r e, RegisterInstance { hasPrintedReady := 0 } acquisitionFailureEnv
          sampleRegisterRequest [] = some r ∧
      r.out = Outcome.returned (none, some e) ∧
      e.errCode = ErrCode.ErrCodeNetworkError ∧ e.cause = some "connection refused" ∧
      healthSignals r.trace = [] := by
  obtain ⟨r, e, hr, ho, hk, hc, _, hs⟩ := (acquisition_failure_is_network_error
    { hasPrintedReady := 0 } acquisitionFailureEnv sampleRegisterRequest []
    sampleDeRegisterRequest sampleHeartbeatRequest sampleReportClientRequest sampleGate
    "connection refused" rfl rfl rfl).1
  exact ⟨r, e, hr, ho, hk, hc, hs⟩

/-- C11. Transport failure, for each of the four operations: if the connection was
acquired and the transport call returns an error, the operation returns an error of kind
network error wrapping that cause, the health signals of the execution are exactly one
ReportFail carrying the ConnID of the connection used, ReportSuccess is not called, the
outcome does not depend on the response body or on the code mapping (the result code is not
classified), and Release is called exactly once. -/
theorem transport_error_reported_and_released (g : Connector) (env : Env)
    (registerReq : InstanceRegisterRequest) (header : List (String × String))
    (deregisterReq : InstanceDeRegisterRequest) (heartbeatReq : InstanceHeartbeatRequest)
    (reportReq : ReportClientRequest)
    (gate : GateResult) (conn : Connection) (t1 t2 t3 : Duration) (rerr : Error)
    (hgate : waitDiscoverReady g.hasPrintedReady env.polls = some gate)
    (hpass : gate.err = none)
    (hconn : env.GetConnection = GetConnectionResult.ok conn)
    (hrpc : env.rpc.err = some rerr)
    (ht1 : registerReq.Timeout = some t1)
    (ht2 : deregisterReq.Timeout = some t2)
    (ht3 : heartbeatReq.Timeout = some t3) :
    (∃ r e, RegisterInstance g env registerReq header = some r ∧
      r.out = Outcome.returned (none, some e) ∧
      e.errCode = ErrCode.ErrCodeNetworkError ∧ e.cause = some rerr ∧
      healthSignals r.trace =
        [Event.ReportFail conn.ConnID ErrCode.ErrorCodeRpcError
           (Sub (env.clock 2) (env.clock 0))] ∧
      reportSuccessCalls r.trace = [] ∧
      releases r.trace = [Event.Release conn.ConnID OpKey.OpKeyRegisterInstance] ∧
      (∀ pbResp convert,
        RegisterInstance g (withResponse env pbResp convert) registerReq header = some r)) ∧
    (∃ r e, DeregisterInstance g env deregisterReq = some r ∧
      r.out = Outcome.returned (some e) ∧
      e.errCode = ErrCode.ErrCodeNetworkError ∧ e.cause = some rerr ∧
      healthSignals r.trace =
        [Event.ReportFail conn.ConnID ErrCode.ErrorCodeRpcError
           (Sub (env.clock 2) (env.clock 0))] ∧
      reportSuccessCalls r.trace = [] ∧
      releases r.trace = [Event.Release conn.ConnID OpKey.OpKeyDeregisterInstance] ∧
      (∀ pbResp convert,
        DeregisterInstance g (withResponse env pbResp convert) deregisterReq = some r)) ∧
    (∃ r e, Heartbeat g env heartbeatReq = some r ∧
      r.out = Outcome.returned (some e) ∧
      e.errCode = ErrCode.ErrCodeNetworkError ∧ e.cause = some rerr ∧
      healthSignals r.trace =
        [Event.ReportFail conn.ConnID ErrCode.ErrorCodeRpcError
           (Sub (env.clock 2) (env.clock 0))] ∧
      reportSuccessCalls r.trace = [] ∧
      releases r.trace = [Event.Release conn.ConnID OpKey.OpKeyInstanceHeartbeat] ∧
      (∀ pbResp convert,
        Heartbeat g (withResponse env pbResp convert) heartbeatReq = some r)) ∧
    (∃ r res e, ReportClient g env reportReq = some r ∧
      r.out = Outcome.returned res ∧ res.resp = none ∧ res.err = some e ∧
      e.errCode = ErrCode.ErrCodeNetworkError ∧ e.cause = some rerr ∧
      healthSignals r.trace =
        [Event.ReportFail conn.ConnID ErrCode.ErrorCodeRpcError
           (Sub (env.clock 1) (env.clock 0))] ∧
      reportSuccessCalls r.trace = [] ∧
      releases r.trace = [Event.Release conn.ConnID OpKey.OpKeyReportClient] ∧
      (∀ pbResp convert,
        ReportClient g (withResponse env pbResp convert) reportReq = some r)) :=
  ⟨RegisterInstance_transport_failure g env registerReq header gate conn t1 rerr
     hgate hpass hconn ht1 hrpc,
   DeregisterInstance_transport_failure g env deregisterReq gate conn t2 rerr
     hgate hpass hconn ht2 hrpc,
   Heartbeat_transport_failure g env heartbeatReq gate conn t3 rerr
     hgate hpass hconn ht3 hrpc,
   ReportClient_transport_failure g env reportReq gate conn rerr hgate hpass hconn hrpc⟩

/-- Scenario C: the transport call of a registration times out on connection 7. -/
theorem transport_error_reported_and_released_witness :
    ∃ r e, RegisterInstance { hasPrintedReady := 0 } timeoutEnv sampleRegisterRequest []
          = some r ∧
      r.out = Outcome.returned (none, some e) ∧
      e.errCode = ErrCode.ErrCodeNetworkError ∧
      e.cause = some "context deadline exceeded" ∧
      healthSignals r.trace
        = [Event.ReportFail sampleConn.ConnID ErrCode.ErrorCodeRpcError 20] ∧
      releases r.trace = [Event.Release sampleConn.ConnID OpKey.OpKeyRegisterInstance] := by
  obtain ⟨r, e, hr, ho, hk, hc, hs, _, hrel, _⟩ := (transport_error_reported_and_released { hasPrintedReady := 0 }
    timeoutEnv sampleRegisterRequest [] sampleDeRegisterRequest sampleHeartbeatRequest
    sampleReportClientRequest sampleGate sampleConn 1000 1000 1000
    "context deadline exceeded" rfl rfl rfl rfl rfl rfl rfl).1
  exact ⟨r, e, hr, ho, hk, hc, hs.trans (by decide), hrel⟩

/-- C12, the claim as stated fails. At a poll where the run-context is cancelled and the
internal deadline has elapsed, and the `select` takes the deadline case, the gate returns
nil instead of the invalid-state error. -/
theorem waitDiscoverReady_cancelled_may_pass :
    bothReadyPoll.runDone = true ∧
    (waitDiscoverReady 0 [bothReadyPoll]).map (fun r => r.err) = some none := by
  decide

/-- C12, amended. On every poll iteration of waitDiscoverReady: if the run-context is
cancelled and the internal deadline has not elapsed, it returns the invalid-state error on
that iteration (also when the pool is ready at the same moment); if both the run-context
is cancelled and the deadline has elapsed, the `select` takes either case and it returns
the invalid-state error or nil accordingly; if only the deadline has elapsed it returns
nil; otherwise, if the pool reports ready it returns nil; otherwise it sleeps one step and
polls again. Consequently the gate returns a non-nil error only when the run-context is
cancelled, that error is the invalid-state error, and the gate returns as soon as a poll
sees a channel or the pool ready. -/
theorem waitDiscoverReady_iteration (flag : Nat) (p : Poll) (rest polls : List Poll) :
    (p.runDone = true → p.ctxDone = false →
      waitDiscoverReady flag (p :: rest)
        = some { err := some invalidStateError, hasPrintedReady := flag, trace := [] }) ∧
    (p.runDone = true → p.ctxDone = true →
      waitDiscoverReady flag (p :: rest)
        = some { err := if p.pickCtx = true then none else some invalidStateError,
                 hasPrintedReady := flag, trace := [] }) ∧
    (p.runDone = false → p.ctxDone = true →
      waitDiscoverReady flag (p :: rest)
        = some { err := none, hasPrintedReady := flag, trace := [] }) ∧
    (p.runDone = false → p.ctxDone = false → p.isReady = true →
      ∃ gate, waitDiscoverReady flag (p :: rest) = some gate ∧ gate.err = none) ∧
    (p.runDone = false → p.ctxDone = false → p.isReady = false →
      waitDiscoverReady flag (p :: rest)
        = (waitDiscoverReady flag rest).map
            (fun r => { r with trace := Event.IsReady :: Event.Sleep :: r.trace })) ∧
    (∀ gate e, waitDiscoverReady flag polls = some gate → gate.err = some e →
      e = invalidStateError ∧ e.errCode = ErrCode.ErrCodeInvalidStateError ∧
      ∃ q ∈ polls, q.runDone = true) ∧
    ((∃ q ∈ polls, q.runDone = true ∨ q.ctxDone = true ∨ q.isReady = true) →
      ∃ gate, waitDiscoverReady flag polls = some gate) := by
  refine ⟨?_, ?_, ?_, ?_, ?_, ?_, ?_⟩
  · intro h1 h2
    simp [waitDiscoverReady, select, h1, h2, invalidStateError]
  · intro h1 h2
    cases h3 : p.pickCtx <;> simp [waitDiscoverReady, select, h1, h2, h3, invalidStateError]
  · intro h1 h2
    simp [waitDiscoverReady, select, h1, h2]
  · intro h1 h2 h3
    by_cases hf : flag = 0
    · refine ⟨{ err := none, hasPrintedReady := 1, trace := [Event.IsReady, Event.LogInfo] },
        ?_, rfl⟩
      simp [waitDiscoverReady, select, h1, h2, h3, hf]
    · refine ⟨{ err := none, hasPrintedReady := flag, trace := [Event.IsReady] }, ?_, rfl⟩
      simp [waitDiscoverReady, select, h1, h2, h3, hf]
  · intro h1 h2 h3
    simp only [waitDiscoverReady, select, h1, h2, h3]
    cases waitDiscoverReady flag rest <;> simp
  · intro gate e hg he
    have h := waitDiscoverReady_err flag polls gate e hg he
    refine ⟨h, ?_, waitDiscoverReady_err_cancelled flag polls gate e hg he⟩
    rw [h]
    rfl
  · exact waitDiscoverReady_returns flag polls

/-- The deadline elapses at the third poll without the pool being ready: the gate
returns nil after two rounds of `IsReady` and sleep. -/
theorem waitDiscoverReady_iteration_witness :
    waitDiscoverReady 0
        [{ runDone := false, ctxDone := false, pickCtx := false, isReady := false },
         { runDone := false, ctxDone := false, pickCtx := false, isReady := false },
         { runDone := false, ctxDone := true, pickCtx := false, isReady := false }]
      = some { err := none, hasPrintedReady := 0,
               trace := [Event.IsReady, Event.Sleep, Event.IsReady, Event.Sleep] } := by
  have h1 := (waitDiscoverReady_iteration 0
    { runDone := false, ctxDone := false, pickCtx := false, isReady := false }
    [{ runDone := false, ctxDone := false, pickCtx := false, isReady := false },
     { runDone := false, ctxDone := true, pickCtx := false, isReady := false }] []).2.2.2.2.1
    rfl rfl rfl
  rw [h1]
  rfl

/-- C13. ReportClient host defaulting. In every execution that reaches request encoding
(the gate passes and a connection is leased): if the request's Host is empty, the host in
the outgoing request, and left in the request, is the pool's client-info IP string, and
GetClientInfo is asked once; if the Host is non-empty it goes out unchanged and
GetClientInfo is not consulted. When the readiness gate or the connection acquisition
fails, the request is left unchanged. -/
theorem ReportClient_host_defaulting (g : Connector) (env : Env) (req : ReportClientRequest)
    (gate : GateResult)
    (hgate : waitDiscoverReady g.hasPrintedReady env.polls = some gate) :
    ∃ r res, ReportClient g env req = some r ∧ r.out = Outcome.returned res ∧
      (∀ conn, gate.err = none → env.GetConnection = GetConnectionResult.ok conn →
        (req.Host = "" →
          res.req.Host = env.clientIP ∧
          transportCalls r.trace
            = [Event.rpc conn.ConnID env.reqID req.Timeout
                (RpcCall.ReportClient env.clientIP req.Version)] ∧
          clientInfoCalls r.trace = [Event.GetClientInfo]) ∧
        (req.Host ≠ "" →
          res.req.Host = req.Host ∧
          transportCalls r.trace
            = [Event.rpc conn.ConnID env.reqID req.Timeout
                (RpcCall.ReportClient req.Host req.Version)] ∧
          clientInfoCalls r.trace = [])) ∧
      ((gate.err ≠ none ∨ ∃ c err, env.GetConnection = GetConnectionResult.fail c err) →
        res.req.Host = req.Host ∧ transportCalls r.trace = [] ∧
        clientInfoCalls r.trace = []) := by
  have hg1 := gate_transportCalls _ _ _ hgate
  have hg2 := gate_clientInfoCalls _ _ _ hgate
  rcases hge : gate.err with _ | e
  · rcases hc : env.GetConnection with conn | ⟨c, cerr⟩
    · obtain ⟨res, ho, hreq⟩ := ReportClient_call_req env req conn hc
      obtain ⟨ht, hi⟩ := ReportClient_call_encoding env req conn hc
      have ht2 : transportCalls (gate.trace ++ (ReportClient.call env req).2)
          = transportCalls (ReportClient.call env req).2 := by
        unfold transportCalls at hg1 ⊢
        rw [List.filter_append, hg1, List.nil_append]
      have hi2 : clientInfoCalls (gate.trace ++ (ReportClient.call env req).2)
          = clientInfoCalls (ReportClient.call env req).2 := by
        unfold clientInfoCalls at hg2 ⊢
        rw [List.filter_append, hg2, List.nil_append]
      refine ⟨_, res, afterGate_pass g env _ _ gate hgate hge, ho, ?_, ?_⟩
      · intro conn2 _ hconn2
        cases hconn2
        constructor
        · intro hempty
          have h0 : req.Host.length = 0 := (host_empty_iff _).mpr hempty
          have hd : hostDefaulted env req = { req with Host := env.clientIP } := by
            simp [hostDefaulted, h0]
          refine ⟨?_, ?_, ?_⟩
          · rw [hreq, hd]
          · show transportCalls (gate.trace ++ (ReportClient.call env req).2) = _
            rw [ht2, ht, hd]
          · show clientInfoCalls (gate.trace ++ (ReportClient.call env req).2) = _
            rw [hi2, hi, if_pos h0]
        · intro hne
          have h0 : ¬ req.Host.length = 0 := fun h => hne ((host_empty_iff _).mp h)
          have hd : hostDefaulted env req = req := by
            simp [hostDefaulted, h0]
          refine ⟨?_, ?_, ?_⟩
          · rw [hreq, hd]
          · show transportCalls (gate.trace ++ (ReportClient.call env req).2) = _
            rw [ht2, ht, hd]
          · show clientInfoCalls (gate.trace ++ (ReportClient.call env req).2) = _
            rw [hi2, hi, if_neg h0]
      · rintro (h | ⟨c, err, h⟩)
        · exact absurd rfl h
        · cases h
    · have ho : (ReportClient.call env req).1 = Outcome.returned
          { resp := none,
            err := some (NewSDKError ErrCode.ErrCodeNetworkError (some cerr)
              { format := "fail to get connection, opKey %s",
                args := [FmtArg.opKey OpKey.OpKeyReportClient] }),
            req := req } := by
        simp [ReportClient.call, hc]
      refine ⟨_, _, afterGate_pass g env _ _ gate hgate hge, ho, ?_, ?_⟩
      · intro conn _ h
        cases h
      · intro _
        unfold transportCalls at hg1 ⊢
        unfold clientInfoCalls at hg2 ⊢
        refine ⟨rfl, ?_, ?_⟩
        · simp [ReportClient.call, hc, hg1]
        · simp [ReportClient.call, hc, hg2]
  · refine ⟨_, _, afterGate_fail g env _ _ gate e hgate hge, rfl, ?_, ?_⟩
    · intro conn h
      cases h
    · intro _
      exact ⟨rfl, hg1, hg2⟩

/-- A client report without a host: "10.0.0.1", the pool's client address, goes out and
stays in the request. -/
theorem ReportClient_host_defaulting_witness :
    ∃ r res, ReportClient { hasPrintedReady := 0 } (sampleEnv (sampleResponse 200000))
          sampleReportClientRequest = some r ∧
      r.out = Outcome.returned res ∧ res.req.Host = "10.0.0.1" ∧
      transportCalls r.trace
        = [Event.rpc sampleConn.ConnID "1" 1000 (RpcCall.ReportClient "10.0.0.1" "v")] := by
  obtain ⟨r, res, hr, ho, h, _⟩ := ReportClient_host_defaulting { hasPrintedReady := 0 }
    (sampleEnv (sampleResponse 200000)) sampleReportClientRequest sampleGate rfl
  have h2 := ((h sampleConn rfl rfl).1 rfl)
  exact ⟨r, res, hr, ho, h2.1, h2.2.1⟩

end Polaris
